import Mathlib

/-!
Verification development for the UziVerse recommendation scoring and
data-completion subsystem.

The JavaScript sources under `src/lib` are shallowly embedded here:
JS objects holding audio-feature values become association lists
(`FeatObj`), JS numbers become elements of a linear ordered field `α`
(instantiated at `ℚ` or `ℝ` in the theorems; exact arithmetic idealises
IEEE doubles), `Math.sqrt` is passed as an explicit function parameter
(instantiated with `Real.sqrt`), nullable DB columns become `Option α`,
and `Array.prototype.sort(cmp)` (stable since ES2019) is modelled with
`List.insertionSort`, which is stable.
-/

namespace UziVerse

section Model

variable {α : Type} [LinearOrderedField α]

/-- A JS object of named numeric audio features, as an insertion-ordered
association list.  JS object keys are unique; theorems that need this carry
a `Nodup` hypothesis on the key list. -/
abbrev FeatObj (α : Type) := List (String × α)

/-- `o[k]` — property access on a feature object. -/
def objGet (o : FeatObj α) (k : String) : Option α := o.lookup k

/-- Keys of `f1` whose value is a number on both objects; embeds the filter
`Object.keys(features1).filter(k => typeof f1[k]==='number' && typeof f2[k]==='number')`
(every stored value is a number in the model, so the check is presence). -/
def commonKeys (f1 f2 : FeatObj α) : List String :=
  (f1.map Prod.fst).filter fun k => (objGet f2 k).isSome

/-- `cosineSimilarity(features1, features2)` from `src/lib/audio-analysis.js`.
`sqrt` abstracts `Math.sqrt`. -/
def cosineSimilarity (sqrt : α → α) (f1 f2 : FeatObj α) : α :=
  let keys := commonKeys f1 f2
  if keys = [] then 0
  else
    let dot := (keys.map fun k => (objGet f1 k).getD 0 * (objGet f2 k).getD 0).sum
    let norm1 := (keys.map fun k => (objGet f1 k).getD 0 * (objGet f1 k).getD 0).sum
    let norm2 := (keys.map fun k => (objGet f2 k).getD 0 * (objGet f2 k).getD 0).sum
    if norm1 = 0 ∨ norm2 = 0 then 0 else dot / (sqrt norm1 * sqrt norm2)

/-- The documented `(min, max)` normalisation ranges from `normalizeFeatures`. -/
def ranges : List (String × α × α) :=
  [("energy", 0, 1), ("danceability", 0, 1), ("valence", 0, 1),
   ("acousticness", 0, 1), ("instrumentalness", 0, 1), ("liveness", 0, 1),
   ("speechiness", 0, 1), ("tempo", 50, 200), ("loudness", -60, 0),
   ("mode", 0, 1), ("key", 0, 11), ("timeSignature", 3, 7)]

/-- `normalizeFeatures(features)`: every present feature with a documented
range is mapped to `(v - min)/(max - min)` clamped to `[0,1]`; other keys
pass through untouched. -/
def normalizeFeatures (f : FeatObj α) : FeatObj α :=
  f.map fun kv =>
    match (ranges (α := α)).lookup kv.1 with
    | some r => (kv.1, max 0 (min 1 ((kv.2 - r.1) / (r.2 - r.1))))
    | none => kv

/-- A song as consumed by `audio-analysis.js`: an optional audio-feature
object, optional genre/mood tag-row arrays, and an optional popularity
counter.  A tag row is kept as an opaque marker (one entry per row): the
callers in this repository load the rows with bare `include` queries, so a
row carries no `name` and the tag branches below observe nothing but the
row counts. -/
structure ASong (α : Type) where
  id : Nat
  audioFeatures : Option (FeatObj α)
  genres : Option (List String)
  moods : Option (List String)
  popularity : Option α
  deriving DecidableEq

/-- The factor weights of `calculateAdvancedSimilarity` (callers use the
defaults; the `weights` argument is spread over them). -/
structure AdvWeights (α : Type) where
  audioFeatures : α
  genre : α
  mood : α
  popularity : α
  deriving DecidableEq

def defaultAdvWeights : AdvWeights α := ⟨3/5, 1/5, 1/10, 1/10⟩

/-- `commonTags.length / Math.max(len1, len2)` — the tag-overlap score used
for genres and moods.  The tag rows reaching these functions come from bare
`include: { genres: true, moods: true }` Prisma queries: they are
`SongGenre`/`SongMood` join rows with no `name` column, so every mapped
`g.name` is `undefined`, `includes(undefined)` holds exactly when the other
mapped list is nonempty, and the filter keeps the whole first list whenever
the second is nonempty — the overlap is a pure row-COUNT comparison, never
a comparison of genre names.  When both lists are empty the JS quotient is
`0/0 = NaN`; the embedding's field division returns `0` there, and theorems
about the advanced score carry hypotheses keeping them away from that
corner. -/
def tagOverlap (g1 g2 : List String) : α :=
  (if g2 = [] then 0 else (g1.length : α)) / (max g1.length g2.length : α)

/-- `calculateAdvancedSimilarity(song1, song2, weights)` from
`src/lib/audio-analysis.js`: each factor contributes `score × weight` to a
running total only when its inputs are present (an array, even empty, is
truthy in JS, so presence of tags is presence of the field); popularity
always contributes via `song.popularity || 0`; the total is clamped to
`[0,1]` at the end.  There is no renormalising denominator. -/
def calculateAdvancedSimilarity (sqrt : α → α) (w : AdvWeights α)
    (s1 s2 : ASong α) : α :=
  let audio : α :=
    match s1.audioFeatures, s2.audioFeatures with
    | some f1, some f2 =>
        cosineSimilarity sqrt (normalizeFeatures f1) (normalizeFeatures f2) *
          w.audioFeatures
    | _, _ => 0
  let genre : α :=
    match s1.genres, s2.genres with
    | some g1, some g2 => tagOverlap g1 g2 * w.genre
    | _, _ => 0
  let mood : α :=
    match s1.moods, s2.moods with
    | some m1, some m2 => tagOverlap m1 m2 * w.mood
    | _, _ => 0
  let pop : α :=
    (1 - |s1.popularity.getD 0 - s2.popularity.getD 0| / 100) * w.popularity
  max 0 (min 1 (audio + genre + mood + pop))

end Model

/-- JS `x.toLowerCase()` for the ASCII strings appearing in the sources. -/
def charLower (c : Char) : Char :=
  if 65 ≤ c.toNat ∧ c.toNat ≤ 90 then Char.ofNat (c.toNat + 32) else c

def jsToLower (s : String) : String := String.mk (s.data.map charLower)

/-- JS `haystack.includes(needle)` — substring containment. -/
def listHasSub (needle : List Char) : List Char → Bool
  | [] => needle.isEmpty
  | c :: rest => needle.isPrefixOf (c :: rest) || listHasSub needle rest

def strHasSub (hay needle : String) : Bool := listHasSub needle.data hay.data

/-- `[...new Set(xs)]` — deduplication keeping first occurrences. -/
def jsDedup (l : List String) : List String :=
  l.foldl (fun acc s => if s ∈ acc then acc else acc ++ [s]) []

/-- The absent `name` of a bare join row: `g => g.name` evaluates to the JS
`undefined` value, which this `List String` embedding renders by a fixed
marker. -/
def undefinedName : String := "undefined"

/-- A song row as returned by the Prisma `song` table with
`include: { genres: true, moods: true }` (see `recommendation-engine.js`):
flat nullable audio-feature columns, always-present (possibly empty) lists
of `SongGenre`/`SongMood` JOIN rows, and aggregate counters.  A bare
include resolves the join table only, so a tag row has `songId`/`genreId`
fields but no `name`: every `g.name`/`m.name` access in the engine yields
`undefined`, and the embedding keeps each row as an opaque marker string
whose content no embedded function reads.  Such rows carry no
`audioFeatures` property either. -/
structure DbSong (α : Type) where
  id : Nat
  title : String
  artist : String
  year : Option Int
  energy : Option α
  danceability : Option α
  valence : Option α
  tempo : Option α
  acousticness : Option α
  instrumentalness : Option α
  liveness : Option α
  speechiness : Option α
  loudness : Option α
  mode : Option α
  key : Option α
  timeSignature : Option α
  genres : List String
  moods : List String
  popularity : Option α
  totalPlays : Int
  avgRating : α
  deriving DecidableEq

section ContentBased

variable {α : Type} [LinearOrderedField α]

/-- Flat property access `song[k]` for the eight features used by
`extractAvailableFeatures` and the correlation models. -/
def dbFeature (s : DbSong α) : String → Option α
  | "energy" => s.energy
  | "danceability" => s.danceability
  | "valence" => s.valence
  | "tempo" => s.tempo
  | "acousticness" => s.acousticness
  | "instrumentalness" => s.instrumentalness
  | "liveness" => s.liveness
  | "speechiness" => s.speechiness
  | _ => none

def posOpt : Option α → Bool
  | none => false
  | some v => decide (0 < v)

/-- `ContentBasedFiltering.hasAudioFeatures(song)`: energy, danceability and
valence all present and strictly positive. -/
def hasAudioFeatures (s : DbSong α) : Bool :=
  posOpt s.energy && posOpt s.danceability && posOpt s.valence

/-- `hasGenres(song)`: the included relation is always an array, so the JS
truthiness check reduces to nonemptiness. -/
def hasGenres (s : DbSong α) : Bool := decide (s.genres ≠ [])

def hasMoods (s : DbSong α) : Bool := decide (s.moods ≠ [])

/-- The coercion implied by passing a Prisma row to
`calculateAdvancedSimilarity`: the row has no `audioFeatures` property, so
the audio branch of the advanced score sees `undefined`; the genre and mood
arrays are the (always present, nameless) join-row lists, of which the
advanced tag branches observe only the counts. -/
def DbSong.toASong (s : DbSong α) : ASong α :=
  ⟨s.id, none, some s.genres, some s.moods, s.popularity⟩

def cbFeatureKeys : List String :=
  ["energy", "danceability", "valence", "tempo", "acousticness",
   "instrumentalness", "liveness", "speechiness"]

/-- `extractAvailableFeatures(song)`: the eight keys with a present,
strictly positive value. -/
def extractAvailableFeatures (s : DbSong α) : FeatObj α :=
  cbFeatureKeys.filterMap fun k =>
    match dbFeature s k with
    | some v => if 0 < v then some (k, v) else none
    | none => none

/-- `calculatePartialAudioSimilarity(song1, song2)`: mean of
`1 - min(|diff|, 1)` over the shared available features, `0` when none. -/
def calculatePartialAudioSimilarity (s1 s2 : DbSong α) : α :=
  let f1 := extractAvailableFeatures s1
  let f2 := extractAvailableFeatures s2
  let common := commonKeys f1 f2
  if common = [] then 0
  else
    (common.map fun k =>
      1 - min |(objGet f1 k).getD 0 - (objGet f2 k).getD 0| 1).sum /
      (common.length : α)

/-- `calculateGenreSimilarity` / `calculateMoodSimilarity`: tag overlap with
an explicit empty-list guard (so the `0/0` corner of `tagOverlap` is
unreachable here); on nameless join rows the overlap is count-based. -/
def cbfTagSim (l1 l2 : List String) : α :=
  if l1 = [] ∨ l2 = [] then 0 else tagOverlap l1 l2

/-- `ContentBasedFiltering.predictGenresFromMetadata(song)` (the
recommendation-engine copy). -/
def cbfPredictGenresFromMetadata (s : DbSong α) : List String :=
  let preds :=
    (if strHasSub (jsToLower s.artist) "uzi" then ["Trap", "Hip-Hop"] else []) ++
    (match s.year with
     | some y => if y ≠ 0 ∧ 2015 ≤ y then ["Rap"] else []
     | none => [])
  if preds = [] then ["Unknown"] else preds

/-- `calculateGenreSimilarityWithPredictions(song1, song2)`: on Prisma rows
the relation array always exists, so `song.genres?.map(...)` yields a
(possibly empty, and truthy even when empty) array of `undefined` names and
the metadata fallback on the right of `||` is never consulted; an empty
side then short-circuits to `0`, and otherwise the count-based overlap
applies. -/
def cbfGenreSimWithPredictions (s1 s2 : DbSong α) : α :=
  cbfTagSim s1.genres s2.genres

def cbfMoodSimWithPredictions (s1 s2 : DbSong α) : α :=
  cbfTagSim s1.moods s2.moods

/-- `ContentBasedFiltering.calculateEnhancedSimilarity(song1, song2)` from
`src/lib/recommendation-engine.js`: factor scores accumulate into
`totalScore` and the consulted weights into `weightSum`; a factor missing on
exactly one side is included at a reduced weight (audio ×0.5, tags ×0.7);
the result is `clamp01(totalScore / weightSum)`. -/
def calculateEnhancedSimilarity (sqrt : α → α) (s1 s2 : DbSong α) : α :=
  let wAudio : α := 1/2
  let wGenre : α := 1/5
  let wMood : α := 1/10
  let wArtist : α := 1/10
  let wPop : α := 1/10
  let audio : α × α :=
    if hasAudioFeatures s1 && hasAudioFeatures s2 then
      (calculateAdvancedSimilarity sqrt defaultAdvWeights s1.toASong s2.toASong
        * wAudio, wAudio)
    else if hasAudioFeatures s1 || hasAudioFeatures s2 then
      (calculatePartialAudioSimilarity s1 s2 * (wAudio * (1/2)), wAudio * (1/2))
    else (0, 0)
  let genre : α × α :=
    if hasGenres s1 && hasGenres s2 then
      (cbfTagSim s1.genres s2.genres * wGenre, wGenre)
    else if hasGenres s1 || hasGenres s2 then
      (cbfGenreSimWithPredictions s1 s2 * (wGenre * (7/10)), wGenre * (7/10))
    else (0, 0)
  let mood : α × α :=
    if hasMoods s1 && hasMoods s2 then
      (cbfTagSim s1.moods s2.moods * wMood, wMood)
    else if hasMoods s1 || hasMoods s2 then
      (cbfMoodSimWithPredictions s1 s2 * (wMood * (7/10)), wMood * (7/10))
    else (0, 0)
  let artistScore : α := if s1.artist = s2.artist then 1 else 0
  let popScore : α := 1 - |s1.popularity.getD 0 - s2.popularity.getD 0| / 100
  let total := audio.1 + genre.1 + mood.1 + artistScore * wArtist + popScore * wPop
  let wsum := audio.2 + genre.2 + mood.2 + wArtist + wPop
  if 0 < wsum then max 0 (min 1 (total / wsum)) else 0

end ContentBased

section Predictor

variable {α : Type} [LinearOrderedField α]

/-- The in-memory model maps of `AIFeaturePredictor`: the values stored
under `featureModels.get('correlations'/'artists'/'years')` and
`genreModels.get('averages')` / `moodModels.get('averages')`; `none`
mirrors an absent map entry. -/
structure PredictorState (α : Type) where
  correlations : Option (List (String × FeatObj α))
  artists : Option (List (String × FeatObj α))
  years : Option (List (String × FeatObj α))
  genreAverages : Option (List (String × FeatObj α))
  moodAverages : Option (List (String × FeatObj α))
  deriving DecidableEq

/-- The fixed per-genre average vectors installed by
`initializeFallbackModels`. -/
def fallbackGenreAverages : List (String × FeatObj α) :=
  [("Trap", [("energy", 4/5), ("danceability", 7/10), ("valence", 1/2),
             ("tempo", 4/5), ("speechiness", 3/5)]),
   ("Hip-Hop", [("energy", 3/5), ("danceability", 3/5), ("valence", 1/2),
                ("tempo", 1/2), ("speechiness", 4/5)]),
   ("R&B", [("energy", 1/2), ("danceability", 7/10), ("valence", 3/5),
            ("tempo", 2/5), ("speechiness", 3/10)]),
   ("Pop", [("energy", 7/10), ("danceability", 4/5), ("valence", 7/10),
            ("tempo", 3/5), ("speechiness", 1/5)])]

/-- The fixed per-mood average vectors installed by
`initializeFallbackModels`. -/
def fallbackMoodAverages : List (String × FeatObj α) :=
  [("Energetic", [("energy", 4/5), ("danceability", 7/10), ("valence", 3/5),
                  ("tempo", 4/5)]),
   ("Chill", [("energy", 3/10), ("danceability", 1/2), ("valence", 3/5),
              ("tempo", 3/10)]),
   ("Happy", [("energy", 3/5), ("danceability", 7/10), ("valence", 4/5),
              ("tempo", 3/5)]),
   ("Sad", [("energy", 3/10), ("danceability", 2/5), ("valence", 1/5),
            ("tempo", 2/5)]),
   ("Danceable", [("energy", 7/10), ("danceability", 9/10), ("valence", 7/10),
                  ("tempo", 7/10)]),
   ("Aggressive", [("energy", 9/10), ("danceability", 3/5), ("valence", 3/10),
                   ("tempo", 4/5)])]

/-- The fixed feature correlations installed by `initializeFallbackModels`. -/
def fallbackCorrelations : List (String × FeatObj α) :=
  [("energy", [("danceability", 3/10), ("valence", 2/5), ("tempo", 1/5)]),
   ("danceability", [("energy", 3/10), ("valence", 1/2), ("tempo", 1/10)]),
   ("valence", [("energy", 2/5), ("danceability", 1/2), ("tempo", 1/10)]),
   ("tempo", [("energy", 1/5), ("danceability", 1/10), ("valence", 1/10)])]

/-- The predictor state produced by `initializeFallbackModels()`: fixed
genre/mood averages and correlations, and no artist or year models. -/
def fallbackState : PredictorState α :=
  ⟨some fallbackCorrelations, none, none,
   some fallbackGenreAverages, some fallbackMoodAverages⟩

/-- JS `x || d` on a nullable numeric column: `0` and `null` both fall back. -/
def jsOr (o : Option α) (d : α) : α :=
  match o with
  | some v => if v = 0 then d else v
  | none => d

/-- `extractAudioFeatures(song)` (the `ai-prediction.js` copy): all twelve
features with `||`-defaults. -/
def aiExtractAudioFeatures (s : DbSong α) : FeatObj α :=
  [("energy", jsOr s.energy 0), ("danceability", jsOr s.danceability 0),
   ("valence", jsOr s.valence 0), ("tempo", jsOr s.tempo 120),
   ("acousticness", jsOr s.acousticness 0),
   ("instrumentalness", jsOr s.instrumentalness 0),
   ("liveness", jsOr s.liveness 0), ("speechiness", jsOr s.speechiness 0),
   ("loudness", jsOr s.loudness (-10)), ("mode", jsOr s.mode 1),
   ("key", jsOr s.key 0), ("timeSignature", jsOr s.timeSignature 4)]

/-- `calculateAverageFeatures(featuresArray)`: per key of the first element,
the mean of the values present across the array. -/
def calculateAverageFeatures (fs : List (FeatObj α)) : FeatObj α :=
  match fs with
  | [] => []
  | f0 :: _ =>
    (f0.map Prod.fst).filterMap fun k =>
      let vals := fs.filterMap fun f => objGet f k
      if vals = [] then none else some (k, vals.sum / (vals.length : α))

/-- `calculateCorrelation(x, y)` — Pearson correlation with the
short-circuits of the source (length mismatch, empty, zero denominator);
the denominator is `Math.sqrt` of the variance product, passed in as the
explicit `sqrt`. -/
def calculateCorrelation (sqrt : α → α) (x y : List α) : α :=
  if x.length ≠ y.length ∨ x = [] then 0
  else
    let n : α := (x.length : α)
    let sumX := x.sum
    let sumY := y.sum
    let sumXY := ((x.zip y).map fun p => p.1 * p.2).sum
    let sumX2 := (x.map fun v => v * v).sum
    let sumY2 := (y.map fun v => v * v).sum
    let num := n * sumXY - sumX * sumY
    let den := sqrt ((n * sumX2 - sumX * sumX) * (n * sumY2 - sumY * sumY))
    if den = 0 then 0 else num / den

/-- The eight feature names iterated by `calculateFeatureCorrelations`. -/
def corrFeatureKeys : List String := cbFeatureKeys

/-- `calculateFeatureCorrelations(trainingData)`: pairwise correlations of
the non-null columns.  (The source filters each column independently, so the
two value lists can have different lengths, in which case
`calculateCorrelation` returns 0.) -/
def calculateFeatureCorrelations (sqrt : α → α) (td : List (DbSong α)) :
    List (String × FeatObj α) :=
  corrFeatureKeys.map fun f =>
    (f, (corrFeatureKeys.filter fun g => g ≠ f).map fun g =>
      (g, calculateCorrelation sqrt
        (td.filterMap fun s => dbFeature s f)
        (td.filterMap fun s => dbFeature s g)))

/-- `createArtistModels(trainingData)`: group by artist in first-appearance
order, keep artists with at least three songs, average their features. -/
def createArtistModels (td : List (DbSong α)) : List (String × FeatObj α) :=
  (jsDedup (td.map (·.artist))).filterMap fun a =>
    let fs := (td.filter fun s => s.artist = a).map aiExtractAudioFeatures
    if 3 ≤ fs.length then some (a, calculateAverageFeatures fs) else none

/-- `getYearRange(year)`. -/
def getYearRange (y : Int) : String :=
  if y < 2000 then "1990s"
  else if y < 2010 then "2000s"
  else if y < 2020 then "2010s"
  else "2020s"

/-- `createYearModels(trainingData)`: group songs with a truthy year by
decade bucket, keep buckets with at least five songs. -/
def createYearModels (td : List (DbSong α)) : List (String × FeatObj α) :=
  let withYear := td.filter fun s =>
    match s.year with
    | some y => y ≠ 0
    | none => False
  (jsDedup (withYear.filterMap fun s => s.year.map getYearRange)).filterMap
    fun r =>
      let fs := (withYear.filter fun s => s.year.map getYearRange = some r).map
        aiExtractAudioFeatures
      if 5 ≤ fs.length then some (r, calculateAverageFeatures fs) else none

/-- The bucketing object of `trainGenreModels`/`trainMoodModels`: each song
pushes its feature vector once per tag row under the property key `g.name`
— on the engine's nameless join rows every key is the JS `undefined`,
coerced to the single property name rendered by `undefinedName`, so all
rows share one bucket.  Keys are kept in first-push order and each bucket
is averaged. -/
def trainTagModels (ps : List (String × FeatObj α)) :
    List (String × FeatObj α) :=
  (jsDedup (ps.map Prod.fst)).map fun k =>
    (k, calculateAverageFeatures ((ps.filter fun p => p.1 = k).map Prod.snd))

/-- `trainGenreModels(trainingData)` over nameless join rows. -/
def trainGenreModels (td : List (DbSong α)) : List (String × FeatObj α) :=
  trainTagModels (td.flatMap fun s =>
    s.genres.map fun _ => (undefinedName, aiExtractAudioFeatures s))

/-- `trainMoodModels(trainingData)` over nameless join rows. -/
def trainMoodModels (td : List (DbSong α)) : List (String × FeatObj α) :=
  trainTagModels (td.flatMap fun s =>
    s.moods.map fun _ => (undefinedName, aiExtractAudioFeatures s))

/-- The training-data admission filter of `initialize()`: energy,
danceability, valence and tempo all non-null and strictly positive. -/
def featureComplete (s : DbSong α) : Bool :=
  posOpt s.energy && posOpt s.danceability && posOpt s.valence && posOpt s.tempo

/-- The warning `initialize()` logs on the fallback path. -/
def insufficientDataWarning : String :=
  "Insufficient training data for AI models, using fallback predictions"

/-- `AIFeaturePredictor.initialize()` over an explicit song table: filters
the feature-complete training set; with fewer than five songs it installs
the fallback models and logs a warning, otherwise it trains the statistical
models.  The second component records the console output. -/
def predictorInit (sqrt : α → α) (allSongs : List (DbSong α)) :
    PredictorState α × List String :=
  let td := allSongs.filter featureComplete
  if td.length < 5 then
    (fallbackState, [insufficientDataWarning])
  else
    (⟨some (calculateFeatureCorrelations sqrt td),
      some (createArtistModels td), some (createYearModels td),
      some (trainGenreModels td), some (trainMoodModels td)⟩,
     ["AI models initialized"])

/-- `defaults` of `getDefaultFeatureValue`. -/
def featureDefaults : FeatObj α :=
  [("energy", 1/2), ("danceability", 1/2), ("valence", 1/2), ("tempo", 120),
   ("acousticness", 1/10), ("instrumentalness", 1/10), ("liveness", 1/10),
   ("speechiness", 1/10), ("loudness", -10), ("mode", 1), ("key", 0),
   ("timeSignature", 4)]

/-- `getDefaultFeatureValue(featureName)` — `defaults[featureName] || 0`. -/
def getDefaultFeatureValue (name : String) : α :=
  jsOr (objGet featureDefaults name) 0

/-- `adjustPredictionByConfidence(prediction, confidence, featureName)`. -/
def adjustPredictionByConfidence (p c : α) (name : String) : α :=
  p * c + getDefaultFeatureValue name * (1 - c)

/-- JS falsiness of the `prediction` variable in `predictFeature`: `null`
and `0` both fail the `if (!prediction)` guards. -/
def jsFalsy : Option α → Bool
  | none => true
  | some v => decide (v = 0)

/-- The artist-rung lookup `artistModels[song.artist][featureName]`. -/
def artistLookup (st : PredictorState α) (artist name : String) : Option α :=
  (st.artists.bind fun am => am.lookup artist).bind fun af => objGet af name

/-- The year-rung lookup `yearModels[getYearRange(song.year)][featureName]`,
guarded by the truthiness of `song.year`. -/
def yearLookup (st : PredictorState α) (year : Option Int) (name : String) :
    Option α :=
  match st.years, year with
  | some ym, some y =>
    if y ≠ 0 then (ym.lookup (getYearRange y)).bind fun yf => objGet yf name
    else none
  | _, _ => none

/-- The correlation-rung accumulation: `(weightedSum, totalWeight)` over the
correlated features present in `availableFeatures`. -/
def corrAccum (fc : FeatObj α) (avail : FeatObj α) : α × α :=
  fc.foldl
    (fun acc kv =>
      match objGet avail kv.1 with
      | some v => (acc.1 + v * kv.2, acc.2 + |kv.2|)
      | none => acc)
    (0, 0)

/-- `AIFeaturePredictor.predictFeature(featureName, availableFeatures, song)`:
the four-rung ladder.  Each rung only fires while the current prediction is
falsy (`null` or `0`); the final value is the confidence blend. -/
def predictFeature (st : PredictorState α) (name : String) (avail : FeatObj α)
    (song : DbSong α) : α :=
  let p1 : Option α × α :=
    match artistLookup st song.artist name with
    | some v => (some v, 4/5)
    | none => (none, 0)
  let p2 : Option α × α :=
    if jsFalsy p1.1 then
      match yearLookup st song.year name with
      | some v => (some v, 3/5)
      | none => p1
    else p1
  let p3 : Option α × α :=
    if jsFalsy p2.1 then
      match st.correlations.bind fun c => c.lookup name with
      | some fc =>
        let acc := corrAccum fc avail
        if 0 < acc.2 then (some (acc.1 / acc.2), min acc.2 (7/10)) else p2
      | none => p2
    else p2
  let p4 : Option α × α :=
    if jsFalsy p3.1 then (some (getDefaultFeatureValue name), 3/10) else p3
  adjustPredictionByConfidence ((p4.1).getD 0) p4.2 name

/-- The keys and initial values of the `predictions` object of
`predictAudioFeatures(song)`, in source order. -/
def predictionsBase (s : DbSong α) : List (String × Option α) :=
  [("energy", s.energy), ("danceability", s.danceability),
   ("valence", s.valence), ("tempo", s.tempo),
   ("acousticness", s.acousticness),
   ("instrumentalness", s.instrumentalness), ("liveness", s.liveness),
   ("speechiness", s.speechiness), ("loudness", s.loudness),
   ("mode", s.mode), ("key", s.key), ("timeSignature", s.timeSignature)]

/-- `predictAudioFeatures(song)`: features that are `null` or `0` are
replaced by `predictFeature`, using the features present and non-zero as
the (fixed) `availableFeatures`. -/
def predictAudioFeatures (st : PredictorState α) (s : DbSong α) : FeatObj α :=
  let base := predictionsBase s
  let avail : FeatObj α := base.filterMap fun kv =>
    match kv.2 with
    | some v => if v = 0 then none else some (kv.1, v)
    | none => none
  base.map fun kv =>
    match kv.2 with
    | some v => if v = 0 then (kv.1, predictFeature st kv.1 avail s) else (kv.1, v)
    | none => (kv.1, predictFeature st kv.1 avail s)

/-- `AIFeaturePredictor.calculateFeatureSimilarity` is the same cosine as
`audio-analysis.js`'s `cosineSimilarity` (presence instead of the `typeof`
check). -/
def calculateFeatureSimilarity (sqrt : α → α) (f1 f2 : FeatObj α) : α :=
  cosineSimilarity sqrt f1 f2

/-- Stable descending sort by the score component — the model of
`.sort((a, b) => b.confidence - a.confidence)` and
`.sort(([,a],[,b]) => b - a)` on score-keyed pairs. -/
def sortByScoreDesc (l : List (String × α)) : List (String × α) :=
  List.insertionSort (fun a b => b.2 ≤ a.2) l

/-- `predictGenresFromAudioFeatures(audioFeatures, genreAverages)`: cosine
score per genre, top three. -/
def predictGenresFromAudioFeatures (sqrt : α → α) (af : FeatObj α)
    (avgs : List (String × FeatObj α)) : List (String × α) :=
  (sortByScoreDesc (avgs.map fun ga =>
    (ga.1, calculateFeatureSimilarity sqrt af ga.2))).take 3

/-- `AIFeaturePredictor.predictGenresFromMetadata(song)` — artist, title and
year heuristics, deduplicated, top two. -/
def aiPredictGenresFromMetadata (s : DbSong α) : List String :=
  let a := jsToLower s.artist
  let t := jsToLower s.title
  let preds :=
    (if strHasSub a "uzi" || strHasSub a "vert" then ["Trap", "Hip-Hop", "Rap"]
     else []) ++
    (if strHasSub t "trap" || strHasSub t "drill" then ["Trap"] else []) ++
    (if strHasSub t "love" || strHasSub t "heart" then ["R&B", "Pop"] else []) ++
    (if strHasSub t "party" || strHasSub t "dance" then ["Pop", "Dance"]
     else []) ++
    (match s.year with
     | some y =>
       if y ≠ 0 then
         if 2015 ≤ y ∧ y ≤ 2020 then ["Trap", "Hip-Hop"]
         else if 2020 ≤ y then ["Rap", "Hip-Hop"]
         else []
       else []
     | none => [])
  (jsDedup preds).take 2

/-- The known-artist pattern table of `predictGenresFromArtist`. -/
def artistPatterns : List (String × List String) :=
  [("trap", ["uzi", "vert", "carti", "thug", "future", "migos"]),
   ("hip-hop", ["drake", "kendrick", "cole", "kanye", "jay-z"]),
   ("r&b", ["weeknd", "beyonce", "rihanna", "usher", "chris brown"]),
   ("pop", ["taylor", "swift", "ariana", "grande", "justin", "bieber"])]

/-- `predictGenresFromArtist(artist)`: every pattern group whose pattern
occurs in the lowercased artist name contributes its (lowercase) label. -/
def predictGenresFromArtist (artist : String) : List String :=
  let al := jsToLower artist
  artistPatterns.filterMap fun gp =>
    if gp.2.any fun p => strHasSub al p then some gp.1 else none

/-- `predictGenresFromYear(year)`. -/
def predictGenresFromYear : Option Int → List String
  | none => []
  | some y =>
    if y = 0 then []
    else if 2010 ≤ y ∧ y ≤ 2015 then ["Hip-Hop", "Pop"]
    else if 2015 ≤ y ∧ y ≤ 2020 then ["Trap", "Hip-Hop", "Rap"]
    else if 2020 ≤ y then ["Rap", "Hip-Hop", "Trap"]
    else []

/-- The weighted-voting combiner of `predictGenresFromFeatures`: an
insertion-ordered object accumulating `confidence` per key. -/
def combineVotes (ps : List (String × α)) : List (String × α) :=
  ps.foldl
    (fun acc kv =>
      if (acc.lookup kv.1).isSome then
        acc.map fun e => if e.1 = kv.1 then (e.1, e.2 + kv.2) else e
      else acc ++ [kv])
    []

/-- `predictGenresFromFeatures(audioFeatures, song)`: the four-voter
ensemble.  The audio voter's entries are pushed as
`{ genre: p, confidence: p.confidence }` where `p` is already a
`{genre, confidence}` record, so when those entries are used as property
keys of `combinedScores`, JS coerces the record to the string
`"[object Object]"`; the embedding applies that coercion directly. -/
def predictGenresFromFeatures (sqrt : α → α) (st : PredictorState α)
    (af : FeatObj α) (s : DbSong α) : List String :=
  match st.genreAverages with
  | none => aiPredictGenresFromMetadata s
  | some avgs =>
    let preds : List (String × α) :=
      (predictGenresFromAudioFeatures sqrt af avgs).map
        (fun p => ("[object Object]", p.2)) ++
      (aiPredictGenresFromMetadata s).map (fun g => (g, 3/5)) ++
      (predictGenresFromArtist s.artist).map (fun g => (g, 7/10)) ++
      (predictGenresFromYear s.year).map (fun g => (g, 1/2))
    ((sortByScoreDesc (combineVotes preds)).take 2).map Prod.fst

/-- `AIFeaturePredictor.predictGenres(song)`: when the song already has
genre rows it returns `song.genres.map(g => g.name)` — on the engine's
nameless join rows a list of `undefined` values, one per row; otherwise the
features are completed and the ensemble runs. -/
def predictGenres (sqrt : α → α) (st : PredictorState α) (s : DbSong α) :
    List String :=
  if s.genres ≠ [] then s.genres.map fun _ => undefinedName
  else predictGenresFromFeatures sqrt st (predictAudioFeatures st s) s

end Predictor

section Hybrid

variable {α : Type} [LinearOrderedField α]

/-- A scored entry of one of the four source lists consumed by
`HybridRecommendationEngine.getRecommendations` (`rec.score` for the
collaborative list, `rec.similarity` for the others), keyed by song id. -/
structure SrcRec (α : Type) where
  id : Nat
  score : α
  deriving DecidableEq

/-- The four weights destructured (with defaults) from the `options`
argument of `getRecommendations`.  The source performs no validation of
these values. -/
structure HybridWeights (α : Type) where
  collaborative : α
  contentBased : α
  aiEnhanced : α
  popularity : α
  deriving DecidableEq

def defaultHybridWeights : HybridWeights α := ⟨3/10, 3/10, 3/10, 1/10⟩

/-- An entry of the `combinedRecs` map: weighted score and contributing
source tags. -/
structure CombinedRec (α : Type) where
  id : Nat
  score : α
  sources : List String
  deriving DecidableEq

/-- The collaborative loop of `getRecommendations`: unconditionally
`combinedRecs.set(id, {score, sources: ['collaborative']})` — duplicates
within the list overwrite (`Map.set` keeps the insertion position). -/
def addCollaborative (w : α) (l : List (SrcRec α)) : List (CombinedRec α) :=
  l.foldl
    (fun acc r =>
      if (acc.find? fun e => e.id = r.id).isSome then
        acc.map fun e => if e.id = r.id then ⟨r.id, r.score * w, ["collaborative"]⟩ else e
      else acc ++ [⟨r.id, r.score * w, ["collaborative"]⟩])
    []

/-- The subsequent loops of `getRecommendations`: an existing entry gets
`existing.score += score` and the tag appended; a new song is inserted. -/
def addSource (w : α) (tag : String) (m : List (CombinedRec α))
    (l : List (SrcRec α)) : List (CombinedRec α) :=
  l.foldl
    (fun acc r =>
      if (acc.find? fun e => e.id = r.id).isSome then
        acc.map fun e =>
          if e.id = r.id then
            ⟨e.id, e.score + r.score * w, e.sources ++ [tag]⟩
          else e
      else acc ++ [⟨r.id, r.score * w, [tag]⟩])
    m

/-- The merge of `getRecommendations`: collaborative, then content-based,
then AI-enhanced, then popularity. -/
def hybridCombine (w : HybridWeights α)
    (collab content ai popular : List (SrcRec α)) : List (CombinedRec α) :=
  let m1 := addCollaborative w.collaborative collab
  let m2 := addSource w.contentBased "content-based" m1 content
  let m3 := addSource w.aiEnhanced "ai-enhanced" m2 ai
  addSource w.popularity "popularity" m3 popular

/-- The tail of `getRecommendations`: sort descending by combined score
(stable), truncate to `limit`.  (The source also attaches `rank` and spreads
the song row; neither affects the claims.) -/
def hybridGetRecommendations (w : HybridWeights α)
    (collab content ai popular : List (SrcRec α)) (limit : Nat) :
    List (CombinedRec α) :=
  (List.insertionSort (fun a b : CombinedRec α => b.score ≤ a.score)
    (hybridCombine w collab content ai popular)).take limit

/-- `combinedRecs.get(id)`'s score, or 0 when absent. -/
def combinedScore (m : List (CombinedRec α)) (id : Nat) : α :=
  match m.find? fun e => e.id = id with
  | some e => e.score
  | none => 0

/-- The total raw score a source list assigns to a song id. -/
def listScoreSum (l : List (SrcRec α)) (id : Nat) : α :=
  ((l.filter fun r => r.id = id).map (·.score)).sum

end Hybrid

section ColdStart

variable {α : Type} [LinearOrderedField α]

/-- The repository rows consulted by `getColdStartRecommendations` and
`getPopularSongs`: the song table plus `(userId, songId)` interaction and
rating rows. -/
structure RecoDb (α : Type) where
  songs : List (DbSong α)
  interactions : List (Nat × Nat)
  ratings : List (Nat × Nat)

def countInteractions (db : RecoDb α) (uid : Nat) : Nat :=
  (db.interactions.filter fun p => p.1 = uid).length

def countRatings (db : RecoDb α) (uid : Nat) : Nat :=
  (db.ratings.filter fun p => p.1 = uid).length

/-- The `orderBy: [{totalPlays: 'desc'}, {avgRating: 'desc'},
{popularity: 'desc'}]` ordering of `getPopularSongs`, as a
larger-or-equal-first relation. -/
def popLe (a b : DbSong α) : Prop :=
  b.totalPlays < a.totalPlays ∨
    (b.totalPlays = a.totalPlays ∧
      (b.avgRating < a.avgRating ∨
        (b.avgRating = a.avgRating ∧ b.popularity.getD 0 ≤ a.popularity.getD 0)))

instance : DecidableRel (popLe (α := α)) := fun _ _ => by
  unfold popLe; infer_instance

instance : IsTotal (DbSong α) popLe where
  total a b := by
    unfold popLe
    rcases lt_trichotomy a.totalPlays b.totalPlays with h | h | h
    · exact Or.inr (Or.inl h)
    · rcases lt_trichotomy a.avgRating b.avgRating with h2 | h2 | h2
      · exact Or.inr (Or.inr ⟨h, Or.inl h2⟩)
      · rcases le_total (a.popularity.getD 0) (b.popularity.getD 0) with h3 | h3
        · exact Or.inr (Or.inr ⟨h, Or.inr ⟨h2, h3⟩⟩)
        · exact Or.inl (Or.inr ⟨h.symm, Or.inr ⟨h2.symm, h3⟩⟩)
      · exact Or.inl (Or.inr ⟨h.symm, Or.inl h2⟩)
    · exact Or.inl (Or.inl h)

instance : IsTrans (DbSong α) popLe where
  trans a b c hab hbc := by
    unfold popLe at *
    rcases hab with h1 | ⟨e1, h1'⟩
    · rcases hbc with h2 | ⟨e2, _⟩
      · exact Or.inl (h2.trans h1)
      · exact Or.inl (by rw [e2]; exact h1)
    · rcases hbc with h2 | ⟨e2, h2'⟩
      · exact Or.inl (by rw [← e1]; exact h2)
      · refine Or.inr ⟨e2.trans e1, ?_⟩
        rcases h1' with g1 | ⟨f1, g1'⟩
        · rcases h2' with g2 | ⟨f2, _⟩
          · exact Or.inl (g2.trans g1)
          · exact Or.inl (by rw [f2]; exact g1)
        · rcases h2' with g2 | ⟨f2, g2'⟩
          · exact Or.inl (by rw [← f1]; exact g2)
          · exact Or.inr ⟨f2.trans f1, g2'.trans g1'⟩

/-- One result row of `ContentBasedFiltering.getPopularSongs`. -/
structure PopRec (α : Type) where
  song : DbSong α
  similarity : α
  reason : String

/-- `getPopularSongs(limit)`: the song table ordered by total plays, then
average rating, then popularity, truncated, every row wrapped with the fixed
similarity `0.5` and reason `'Popular song'`. -/
def getPopularSongs (db : RecoDb α) (limit : Nat) : List (PopRec α) :=
  ((List.insertionSort popLe db.songs).take limit).map fun s =>
    ⟨s, 1/2, "Popular song"⟩

/-- One entry of a cold-start response. -/
structure ColdEntry (α : Type) where
  song : DbSong α
  recommendationScore : α
  sources : List String

/-- The outcome of `getColdStartRecommendations`: either the popularity
list produced on the cold path, or delegation to the full hybrid
`getRecommendations` pipeline (whose value is not needed by the claims). -/
inductive ColdOutcome (α : Type) where
  | delegated
  | cold (entries : List (ColdEntry α))

/-- The engine methods invoked by the delegated path's `Promise.all`
fan-out inside `getRecommendations`. -/
def hybridFanoutCalls : List String :=
  ["collaborative.findSimilarItems", "contentBased.getRecommendations",
   "aiEnhancedEngine.getEnhancedRecommendations", "contentBased.getPopularSongs"]

/-- `HybridRecommendationEngine.getColdStartRecommendations(userId, limit)`:
with zero interaction rows and zero rating rows for the user it returns the
popularity list, each entry tagged `sources: ['cold-start']`; otherwise it
delegates to `getRecommendations`.  The second component logs which engine
methods are invoked on each path. -/
def getColdStartRecommendations (db : RecoDb α) (uid : Nat) (limit : Nat) :
    ColdOutcome α × List String :=
  if 0 < countInteractions db uid ∨ 0 < countRatings db uid then
    (ColdOutcome.delegated, hybridFanoutCalls)
  else
    (ColdOutcome.cold ((getPopularSongs db limit).map fun r =>
      ⟨r.song, r.similarity, ["cold-start"]⟩),
     ["contentBased.getPopularSongs"])

end ColdStart

section Fixtures

/-- A song row with every nullable column absent and empty tag arrays. -/
def songBlank : DbSong ℚ :=
  ⟨7, "song", "midnight", none, none, none, none, none, none, none, none,
   none, none, none, none, none, [], [], none, 0, 0⟩

/-- The same blank row over `ℝ`, for the claims evaluated with `Real.sqrt`. -/
def songBlankR : DbSong ℝ :=
  ⟨7, "song", "midnight", none, none, none, none, none, none, none, none,
   none, none, none, none, none, [], [], none, 0, 0⟩

/-- A song with a single genre row and no other data (the row marker stands
for a nameless join row). -/
def songGa : DbSong ℝ := { songBlankR with artist := "a", genres := ["Pop"] }

/-- A same-artist companion carrying TWO genre rows, so the pair's genre
factor scores 1/2 in one direction and 1 in the other. -/
def songGc : DbSong ℝ :=
  { songBlankR with id := 8, artist := "a", genres := ["Trap", "Drill"] }

/-- The same pair with the genre rows removed from both sides. -/
def songGaX : DbSong ℝ := { songGa with genres := [] }

def songGcX : DbSong ℝ := { songGc with genres := [] }

/-- A different-artist companion with two genre rows, for the asymmetry
counterexample. -/
def songGb2 : DbSong ℝ :=
  { songBlankR with id := 8, artist := "b", genres := ["Trap", "Drill"] }

/-- A pair of songs with no present factor other than popularity. -/
def aSongEmpty1 : ASong ℝ := ⟨1, none, none, none, none⟩

def aSongEmpty2 : ASong ℝ := ⟨2, none, none, none, none⟩

/-- A pair where only the first song has audio features (partial-credit
path of the enhanced similarity). -/
def songP1 : DbSong ℝ :=
  { songBlankR with
      artist := "a"
      energy := some 1
      danceability := some 1
      valence := some 1 }

def songP2 : DbSong ℝ := { songBlankR with id := 8, artist := "a" }

/-- The C9 song: artist "uzi", no genres, no year, every audio
column null. -/
def songUziR : DbSong ℝ := { songBlankR with artist := "uzi" }

end Fixtures

section ClaimC2

/-- The correlation-rung accumulator over an empty `availableFeatures`
object is `(0, 0)`. -/
theorem corrAccum_nil_avail {α : Type} [LinearOrderedField α]
    (fc : FeatObj α) : corrAccum fc [] = (0, 0) := by
  induction fc with
  | nil => rfl
  | cons kv rest ih => simp [corrAccum, objGet]

/-- In fallback mode with no available features, every rung fails and the
ladder returns the per-feature default (the confidence blend of the default
with itself). -/
theorem predictFeature_fallback_no_avail {α : Type} [LinearOrderedField α]
    (nm : String) (s : DbSong α) :
    predictFeature (α := α) fallbackState nm [] s
      = getDefaultFeatureValue nm := by
  rcases h : List.lookup nm (fallbackCorrelations (α := α)) with _ | fc <;>
    simp [predictFeature, artistLookup, yearLookup, fallbackState, jsFalsy, h,
      corrAccum_nil_avail, adjustPredictionByConfidence] <;>
    ring

/-- C2: the feature-prediction ladder does NOT keep every prediction inside
the documented `(min, max)` range: with the fallback correlation model and a
song whose only present feature is `tempo = 180`, the correlation rung
predicts `energy` as `180` with confidence `0.2`, and the confidence blend
`adjustPredictionByConfidence` returns `36.4`, far outside energy's
documented range `[0, 1]`.  (The rung mixes tempo's raw 50–200 scale into a
unit-range feature and nothing clamps the result.) -/
theorem predictFeature_escapes_documented_range :
    predictFeature (α := ℚ) fallbackState "energy" [("tempo", 180)] songBlank
      = 182/5 ∧
    ¬ predictFeature (α := ℚ) fallbackState "energy" [("tempo", 180)] songBlank
      ≤ 1 := by
  have h : predictFeature (α := ℚ) fallbackState "energy" [("tempo", 180)]
      songBlank = 182/5 := by
    simp [predictFeature, artistLookup, yearLookup, fallbackState, jsFalsy,
      corrAccum, fallbackCorrelations, objGet, List.lookup,
      adjustPredictionByConfidence, getDefaultFeatureValue, featureDefaults,
      jsOr, songBlank, min_def]
    rw [show |(5:ℚ)⁻¹| = 5⁻¹ from abs_of_pos (by norm_num)]
    norm_num
  exact ⟨h, by rw [h]; norm_num⟩

/-- C2 (amended): the ladder's predictions are not clamped to the
documented ranges and the correlation rung can leave them (see the
counterexample); only when every model rung fails — no artist model, no
year model, no available features for the correlation rung — is the
returned value the per-feature default, which does lie inside each
feature's documented `(min, max)`. -/
theorem predictFeature_default_rung_in_documented_range (s : DbSong ℚ) :
    ∀ nm lo hi, (ranges (α := ℚ)).lookup nm = some (lo, hi) →
      predictFeature (α := ℚ) fallbackState nm [] s
        = getDefaultFeatureValue nm ∧
      lo ≤ predictFeature (α := ℚ) fallbackState nm [] s ∧
      predictFeature (α := ℚ) fallbackState nm [] s ≤ hi := by
  intro nm lo hi hr
  have hd := predictFeature_fallback_no_avail nm s
  refine ⟨hd, ?_, ?_⟩ <;> rw [hd] <;>
  · simp only [ranges, List.lookup] at hr
    repeat' split at hr
    all_goals
      first
      | (rename_i heq
         try simp only [beq_iff_eq] at heq
         try subst heq
         injection hr with hr2
         injection hr2 with h1 h2
         subst h1; subst h2
         simp [getDefaultFeatureValue, featureDefaults, objGet, jsOr,
           List.lookup]
         try norm_num)
      | exact absurd hr (by simp)

/-- Witness for the amended C2 theorem: the blank fixture song and the
feature `energy` with its documented range `[0, 1]`. -/
theorem predictFeature_default_rung_in_documented_range_witness :
    predictFeature (α := ℚ) fallbackState "energy" [] songBlank
      = getDefaultFeatureValue "energy" ∧
    (0 : ℚ) ≤ predictFeature (α := ℚ) fallbackState "energy" [] songBlank ∧
    predictFeature (α := ℚ) fallbackState "energy" [] songBlank ≤ 1 :=
  predictFeature_default_rung_in_documented_range songBlank "energy" 0 1
    (by simp [ranges, List.lookup])

end ClaimC2

section ClaimC10

/-- If the artist rung looks up the exact value `0`, the whole ladder
behaves as if there were no artist model at all. -/
theorem predictFeature_artist_zero_falls_through (st : PredictorState ℚ)
    (nm : String) (avail : FeatObj ℚ) (s : DbSong ℚ)
    (h : artistLookup st s.artist nm = some 0) :
    predictFeature st nm avail s
      = predictFeature { st with artists := none } nm avail s := by
  have h2 : artistLookup { st with artists := none } s.artist nm = none := rfl
  have hyE : yearLookup { st with artists := none } s.year nm
      = yearLookup st s.year nm := rfl
  have hcE : ({ st with artists := none } : PredictorState ℚ).correlations
      = st.correlations := rfl
  simp only [predictFeature, h, h2, hyE, hcE]
  rcases hy : yearLookup st s.year nm with _ | v
  · rcases hc : st.correlations.bind (fun c => List.lookup nm c) with _ | fc
    · simp [hy, hc, jsFalsy]
    · by_cases ht : 0 < (corrAccum fc avail).2
      · simp [hy, hc, ht, jsFalsy]
      · simp [hy, hc, ht, jsFalsy]
  · simp [hy, jsFalsy]

/-- If the artist rung produced nothing and the year rung looks up the
exact value `0`, the ladder behaves as if there were no year model. -/
theorem predictFeature_year_zero_falls_through (st : PredictorState ℚ)
    (nm : String) (avail : FeatObj ℚ) (s : DbSong ℚ)
    (ha : artistLookup st s.artist nm = none)
    (h : yearLookup st s.year nm = some 0) :
    predictFeature st nm avail s
      = predictFeature { st with years := none } nm avail s := by
  have ha2 : artistLookup { st with years := none } s.artist nm
      = artistLookup st s.artist nm := rfl
  have h2 : yearLookup { st with years := none } s.year nm = none := by
    unfold yearLookup
    rcases s.year with _ | y <;> rfl
  have hcE : ({ st with years := none } : PredictorState ℚ).correlations
      = st.correlations := rfl
  simp only [predictFeature, h, h2, ha2, ha, hcE]
  rcases hc : st.correlations.bind (fun c => List.lookup nm c) with _ | fc
  · simp [hc, jsFalsy]
  · by_cases ht : 0 < (corrAccum fc avail).2
    · simp [hc, ht, jsFalsy]
    · simp [hc, ht, jsFalsy]

/-- If the earlier rungs produced nothing and the correlation rung's
weighted estimate is exactly `0` (with positive total weight), the ladder
returns the plain per-feature default — not a `0`-anchored confidence
blend. -/
theorem predictFeature_correlation_zero_falls_through (st : PredictorState ℚ)
    (nm : String) (avail : FeatObj ℚ) (s : DbSong ℚ) (fc : FeatObj ℚ) (t : ℚ)
    (ha : artistLookup st s.artist nm = none)
    (hy : yearLookup st s.year nm = none)
    (hc : st.correlations.bind (fun c => List.lookup nm c) = some fc)
    (hacc : corrAccum fc avail = (0, t)) (ht : 0 < t) :
    predictFeature st nm avail s = getDefaultFeatureValue nm := by
  simp only [predictFeature, ha, hy, hc, hacc]
  simp [ht, jsFalsy, adjustPredictionByConfidence]
  ring

/-- C10: the ladder tests numeric truthiness, not presence — a rung whose
computed prediction is exactly `0` is treated as having produced nothing:
a `0` from the artist rung (resp. year rung) makes the ladder behave
exactly as if that model were absent, and a `0` estimate from the
correlation rung yields the plain per-feature default. -/
theorem predictFeature_zero_rung_values_never_returned :
    (∀ (st : PredictorState ℚ) nm avail s,
      artistLookup st s.artist nm = some 0 →
      predictFeature st nm avail s
        = predictFeature { st with artists := none } nm avail s) ∧
    (∀ (st : PredictorState ℚ) nm avail s,
      artistLookup st s.artist nm = none →
      yearLookup st s.year nm = some 0 →
      predictFeature st nm avail s
        = predictFeature { st with years := none } nm avail s) ∧
    (∀ (st : PredictorState ℚ) nm avail s fc t,
      artistLookup st s.artist nm = none →
      yearLookup st s.year nm = none →
      st.correlations.bind (fun c => List.lookup nm c) = some fc →
      corrAccum fc avail = (0, t) → 0 < t →
      predictFeature st nm avail s = getDefaultFeatureValue nm) :=
  ⟨predictFeature_artist_zero_falls_through,
   predictFeature_year_zero_falls_through,
   fun st nm avail s fc t ha hy hc hacc ht =>
     predictFeature_correlation_zero_falls_through st nm avail s fc t
       ha hy hc hacc ht⟩

/-- Witness for C10: concrete states exercising all three rungs.  The
artist model stores `energy ↦ 0` for the blank song's artist; the year
model stores `energy ↦ 0` for the 2010s bucket; the correlation rung gets
`tempo ↦ -1` against an available `tempo = 0`... rather, weighted sum `0`
with positive total weight via two cancelling contributions. -/
theorem predictFeature_zero_rung_values_never_returned_witness :
    (predictFeature
        ⟨some (fallbackCorrelations (α := ℚ)),
         some [("midnight", [("energy", 0)])], none, none, none⟩
        "energy" [] songBlank
      = predictFeature
        ⟨some (fallbackCorrelations (α := ℚ)), none, none, none, none⟩
        "energy" [] songBlank) ∧
    (predictFeature
        ⟨none, none, some [("2010s", [("energy", 0)])], none, none⟩
        "energy" [] { songBlank with year := some 2015 }
      = predictFeature ⟨none, none, none, none, none⟩
        "energy" [] { songBlank with year := some 2015 }) ∧
    (predictFeature
        ⟨some [("energy", [("tempo", 1), ("valence", -1)])], none, none,
         none, none⟩
        "energy" [("tempo", 2), ("valence", 2)] songBlank
      = getDefaultFeatureValue "energy") := by
  refine ⟨?_, ?_, ?_⟩
  · exact predictFeature_zero_rung_values_never_returned.1 _ "energy" []
      songBlank (by simp [artistLookup, objGet, List.lookup, songBlank])
  · exact predictFeature_zero_rung_values_never_returned.2.1 _ "energy" []
      { songBlank with year := some 2015 }
      (by simp [artistLookup]) (by simp [yearLookup, getYearRange, objGet,
        List.lookup, songBlank])
  · exact predictFeature_zero_rung_values_never_returned.2.2 _ "energy"
      [("tempo", 2), ("valence", 2)] songBlank
      [("tempo", 1), ("valence", -1)] 2
      (by simp [artistLookup]) (by simp [yearLookup])
      (by simp [List.lookup])
      (by simp [corrAccum, objGet, List.lookup]; norm_num) (by norm_num)

end ClaimC10

section ClaimC7

/-- C7: with fewer than five feature-complete songs, `initialize()` skips
statistical training entirely: it installs the fixed hand-specified genre
and mood average tables and fallback correlations, leaves no artist or year
models, and logs the insufficient-data warning (the observable fallback
status).  Every subsequent genre prediction therefore scores candidates
against the fixed table, whose only candidate genres are Trap, Hip-Hop,
R&B and Pop. -/
theorem predictorInit_insufficient_data_uses_fallback_table
    (sq : ℚ → ℚ) (allSongs : List (DbSong ℚ))
    (h : (allSongs.filter featureComplete).length < 5) :
    predictorInit sq allSongs = (fallbackState, [insufficientDataWarning]) ∧
    (predictorInit sq allSongs).1.genreAverages = some fallbackGenreAverages ∧
    (predictorInit sq allSongs).1.moodAverages = some fallbackMoodAverages ∧
    (predictorInit sq allSongs).1.correlations = some fallbackCorrelations ∧
    (predictorInit sq allSongs).1.artists = none ∧
    (predictorInit sq allSongs).1.years = none ∧
    insufficientDataWarning ∈ (predictorInit sq allSongs).2 ∧
    (∀ (sqrt : ℚ → ℚ) af s,
      predictGenresFromFeatures sqrt (predictorInit sq allSongs).1 af s
        = predictGenresFromFeatures sqrt fallbackState af s) ∧
    (∀ (sqrt : ℚ → ℚ) af,
      ((predictGenresFromAudioFeatures (α := ℚ) sqrt af
          fallbackGenreAverages).map Prod.fst)
        ⊆ ["Trap", "Hip-Hop", "R&B", "Pop"]) := by
  have he : predictorInit sq allSongs
      = (fallbackState, [insufficientDataWarning]) := by
    simp [predictorInit, h]
  refine ⟨he, ?_, ?_, ?_, ?_, ?_, ?_, ?_, ?_⟩
  · rw [he]; rfl
  · rw [he]; rfl
  · rw [he]; rfl
  · rw [he]; rfl
  · rw [he]; rfl
  · rw [he]; simp
  · intro sqrt af s; rw [he]
  · intro sqrt af x hx
    simp only [predictGenresFromAudioFeatures, sortByScoreDesc] at hx
    rcases List.mem_map.mp hx with ⟨p, hp, rfl⟩
    have h1 := List.mem_of_mem_take hp
    have h2 : p ∈ (fallbackGenreAverages (α := ℚ)).map fun ga =>
        (ga.1, calculateFeatureSimilarity sqrt af ga.2) :=
      (List.perm_insertionSort _ _).mem_iff.mp h1
    rcases List.mem_map.mp h2 with ⟨ga, hga, rfl⟩
    fin_cases hga <;> simp

/-- Witness for C7: the empty song table has zero feature-complete songs
(square root instantiated by the identity, never consulted on this path). -/
theorem predictorInit_insufficient_data_uses_fallback_table_witness :
    predictorInit id ([] : List (DbSong ℚ))
      = (fallbackState, [insufficientDataWarning]) :=
  (predictorInit_insufficient_data_uses_fallback_table id [] (by simp)).1

end ClaimC7

section HybridLemmas

theorem listScoreSum_cons (r : SrcRec ℚ) (l : List (SrcRec ℚ)) (id : Nat) :
    listScoreSum (r :: l) id
      = (if r.id = id then r.score else 0) + listScoreSum l id := by
  by_cases h : r.id = id <;> simp [listScoreSum, List.filter_cons, h]

theorem listScoreSum_eq_zero_of_not_mem (l : List (SrcRec ℚ)) (id : Nat)
    (h : id ∉ l.map (·.id)) : listScoreSum l id = 0 := by
  induction l with
  | nil => rfl
  | cons r rest ih =>
    simp only [List.map_cons, List.mem_cons] at h
    push_neg at h
    rw [listScoreSum_cons, ih h.2, if_neg (fun hh => h.1 hh.symm), add_zero]

/-- The per-element step of the `+=`-style merge loops changes the score of
song `id` by `w × r.score` exactly when `r` is that song. -/
theorem combinedScore_step (m : List (CombinedRec ℚ)) (r : SrcRec ℚ) (w : ℚ)
    (tag : String) (id : Nat) :
    combinedScore
      (if (m.find? fun e => e.id = r.id).isSome then
        m.map fun e =>
          if e.id = r.id then ⟨e.id, e.score + r.score * w, e.sources ++ [tag]⟩
          else e
      else m ++ [⟨r.id, r.score * w, [tag]⟩]) id
    = combinedScore m id + (if r.id = id then r.score * w else 0) := by
  by_cases hp : (m.find? fun e => e.id = r.id).isSome
  · rw [if_pos hp]
    have hcomp :
        ((fun e : CombinedRec ℚ => decide (e.id = id)) ∘ fun e =>
          if e.id = r.id then
            (⟨e.id, e.score + r.score * w, e.sources ++ [tag]⟩ : CombinedRec ℚ)
          else e)
        = fun e : CombinedRec ℚ => decide (e.id = id) := by
      funext e
      by_cases he : e.id = r.id <;> simp [he]
    unfold combinedScore
    rw [List.find?_map, hcomp]
    rcases hf : (m.find? fun e => decide (e.id = id)) with _ | e0
    · have hrid : ¬ (r.id = id) := by
        intro hid
        rcases Option.isSome_iff_exists.mp hp with ⟨e1, he1⟩
        have hmem := List.find?_eq_none.mp hf e1 (List.mem_of_find?_eq_some he1)
        have h2 := List.find?_some he1
        simp at hmem h2
        exact hmem (hid ▸ h2)
      simp [hf, hrid]
    · have he0 : e0.id = id := by
        have := List.find?_some hf
        simpa using this
      by_cases hid : r.id = id
      · simp [hf, he0, hid]
      · have hne : ¬ (e0.id = r.id) := by rw [he0]; exact fun h => hid h.symm
        simp [hf, hne, hid]
  · rw [if_neg hp]
    have hnone := Option.not_isSome_iff_eq_none.mp hp
    unfold combinedScore
    rw [List.find?_append]
    by_cases hid : r.id = id
    · subst hid
      rw [hnone]
      simp
    · have hsingle : (List.find? (fun e => decide (e.id = id))
          [(⟨r.id, r.score * w, [tag]⟩ : CombinedRec ℚ)]) = none := by
        simp [hid]
      rcases hf : (m.find? fun e => decide (e.id = id)) with _ | e0 <;>
        simp [hf, hsingle, hid]

theorem ids_step (m : List (CombinedRec ℚ)) (r : SrcRec ℚ) (w : ℚ)
    (tag : String) :
    (if (m.find? fun e => e.id = r.id).isSome then
        m.map fun e =>
          if e.id = r.id then ⟨e.id, e.score + r.score * w, e.sources ++ [tag]⟩
          else e
      else m ++ [⟨r.id, r.score * w, [tag]⟩]).map (·.id)
    = if (m.find? fun e => e.id = r.id).isSome then m.map (·.id)
      else m.map (·.id) ++ [r.id] := by
  by_cases hp : (m.find? fun e => e.id = r.id).isSome
  · rw [if_pos hp, if_pos hp, List.map_map]
    congr 1
    funext e
    by_cases he : e.id = r.id <;> simp [he]
  · rw [if_neg hp, if_neg hp]
    simp

theorem ids_step_nodup (m : List (CombinedRec ℚ)) (r : SrcRec ℚ) (w : ℚ)
    (tag : String) (h : (m.map (·.id)).Nodup) :
    ((if (m.find? fun e => e.id = r.id).isSome then
        m.map fun e =>
          if e.id = r.id then ⟨e.id, e.score + r.score * w, e.sources ++ [tag]⟩
          else e
      else m ++ [⟨r.id, r.score * w, [tag]⟩]).map (·.id)).Nodup := by
  rw [ids_step]
  by_cases hp : (m.find? fun e => e.id = r.id).isSome
  · rwa [if_pos hp]
  · rw [if_neg hp]
    have hnone := Option.not_isSome_iff_eq_none.mp hp
    have hnm : r.id ∉ m.map (·.id) := by
      intro hmem
      rcases List.mem_map.mp hmem with ⟨e, he, heq⟩
      have := List.find?_eq_none.mp hnone e he
      simp at this
      exact this heq
    simp [List.nodup_append, h, hnm]

/-- The `+=`-style merge loop adds `w × (total score of the list for id)`
to every song's combined score, and preserves key uniqueness. -/
theorem addSource_score (w : ℚ) (tag : String) :
    ∀ (l : List (SrcRec ℚ)) (m : List (CombinedRec ℚ)),
      (m.map (·.id)).Nodup →
      ((m.map (·.id)).Nodup ∧
        ((addSource w tag m l).map (·.id)).Nodup ∧
        ∀ id, combinedScore (addSource w tag m l) id
          = combinedScore m id + w * listScoreSum l id) := by
  intro l
  induction l with
  | nil =>
    intro m hm
    exact ⟨hm, hm, fun id => by simp [addSource, listScoreSum, combinedScore]⟩
  | cons r rest ih =>
    intro m hm
    have hstep : addSource w tag m (r :: rest)
        = addSource w tag
          (if (m.find? fun e => e.id = r.id).isSome then
            m.map fun e =>
              if e.id = r.id then
                ⟨e.id, e.score + r.score * w, e.sources ++ [tag]⟩
              else e
          else m ++ [⟨r.id, r.score * w, [tag]⟩]) rest := by
      simp only [addSource, List.foldl_cons]
    have hm' := ids_step_nodup m r w tag hm
    rcases ih _ hm' with ⟨_, hnod2, hscore⟩
    refine ⟨hm, by rwa [hstep], fun id => ?_⟩
    rw [hstep, hscore id, combinedScore_step, listScoreSum_cons]
    by_cases hid : r.id = id <;> · simp [hid]; try ring

/-- With unique song ids, the collaborative loop (plain `Map.set`) produces
exactly the weighted image of its input list. -/
theorem addCollaborative_eq (w : ℚ) :
    ∀ (l : List (SrcRec ℚ)) (acc : List (CombinedRec ℚ)),
      (l.map (·.id)).Nodup →
      (∀ rid ∈ l.map (·.id), rid ∉ acc.map (·.id)) →
      l.foldl
        (fun acc r =>
          if (acc.find? fun e => e.id = r.id).isSome then
            acc.map fun e =>
              if e.id = r.id then ⟨r.id, r.score * w, ["collaborative"]⟩ else e
          else acc ++ [⟨r.id, r.score * w, ["collaborative"]⟩]) acc
      = acc ++ l.map fun r => ⟨r.id, r.score * w, ["collaborative"]⟩ := by
  intro l
  induction l with
  | nil => intro acc _ _; simp
  | cons r rest ih =>
    intro acc hnod hdisj
    have hnotin : r.id ∉ acc.map (·.id) := hdisj r.id (by simp)
    have hfind : (acc.find? fun e => e.id = r.id) = none := by
      rw [List.find?_eq_none]
      intro e he
      simp only [decide_eq_true_eq]
      intro heq
      exact hnotin (List.mem_map.mpr ⟨e, he, heq⟩)
    simp only [List.foldl_cons, hfind, Option.isSome_none, Bool.false_eq_true,
      if_false]
    have hnod' : (rest.map (·.id)).Nodup := (List.nodup_cons.mp hnod).2
    have hdisj' : ∀ rid ∈ rest.map (·.id),
        rid ∉ (acc ++ [(⟨r.id, r.score * w, ["collaborative"]⟩ :
          CombinedRec ℚ)]).map (·.id) := by
      intro rid hmem
      simp only [List.map_append, List.mem_append, List.map_cons,
        List.map_nil, List.mem_singleton]
      push_neg
      refine ⟨hdisj rid (by simp [hmem]), ?_⟩
      intro heq
      rw [heq] at hmem
      exact (List.nodup_cons.mp hnod).1 hmem
    rw [ih _ hnod' hdisj']
    simp

theorem combinedScore_weighted_map (w : ℚ) :
    ∀ (l : List (SrcRec ℚ)), (l.map (·.id)).Nodup → ∀ id,
      combinedScore (l.map fun r => ⟨r.id, r.score * w, ["collaborative"]⟩) id
        = w * listScoreSum l id := by
  intro l
  induction l with
  | nil => intro _ id; simp [combinedScore, listScoreSum]
  | cons r rest ih =>
    intro hnod id
    rcases List.nodup_cons.mp hnod with ⟨hnotin, hnod'⟩
    rw [listScoreSum_cons]
    by_cases hid : r.id = id
    · subst hid
      have hz : listScoreSum rest r.id = 0 :=
        listScoreSum_eq_zero_of_not_mem rest r.id hnotin
      simp [combinedScore, List.find?_cons, hz]
      ring
    · have hrest := ih hnod' id
      simp only [List.map_cons]
      unfold combinedScore
      rw [List.find?_cons]
      simp only [show (decide ((⟨r.id, r.score * w, ["collaborative"]⟩ :
        CombinedRec ℚ).id = id)) = false by simp [hid]]
      unfold combinedScore at hrest
      rw [hrest, if_neg hid]
      ring

theorem addCollaborative_score (w : ℚ) (l : List (SrcRec ℚ))
    (hnod : (l.map (·.id)).Nodup) :
    addCollaborative w l
      = l.map (fun r => ⟨r.id, r.score * w, ["collaborative"]⟩) ∧
    ((addCollaborative w l).map (·.id)).Nodup ∧
    ∀ id, combinedScore (addCollaborative w l) id = w * listScoreSum l id := by
  have he : addCollaborative w l
      = l.map fun r => ⟨r.id, r.score * w, ["collaborative"]⟩ := by
    have := addCollaborative_eq w l [] hnod (by simp)
    simpa [addCollaborative] using this
  refine ⟨he, ?_, fun id => ?_⟩
  · rw [he, List.map_map]
    simpa using hnod
  · rw [he]
    exact combinedScore_weighted_map w l hnod id

/-- The combined score of every song after the full hybrid merge is the
weighted sum of its per-source totals. -/
theorem hybridCombine_score (w : HybridWeights ℚ)
    (collab content ai popular : List (SrcRec ℚ))
    (hnod : (collab.map (·.id)).Nodup) (id : Nat) :
    combinedScore (hybridCombine w collab content ai popular) id
      = w.collaborative * listScoreSum collab id
        + w.contentBased * listScoreSum content id
        + w.aiEnhanced * listScoreSum ai id
        + w.popularity * listScoreSum popular id := by
  rcases addCollaborative_score w.collaborative collab hnod with ⟨_, hn1, hs1⟩
  rcases addSource_score w.contentBased "content-based" content _ hn1 with
    ⟨_, hn2, hs2⟩
  rcases addSource_score w.aiEnhanced "ai-enhanced" ai _ hn2 with ⟨_, hn3, hs3⟩
  rcases addSource_score w.popularity "popularity" popular _ hn3 with
    ⟨_, _, hs4⟩
  unfold hybridCombine
  rw [hs4 id, hs3 id, hs2 id, hs1 id]

end HybridLemmas

section ClaimC4

/-- C4: in the hybrid merge a song appearing in several source lists gets
the SUM of each source's score times that source's weight (first
conjunct, for any input lists whose collaborative entries have unique song
ids — the collaborative loop overwrites duplicate ids, the later loops
accumulate), and in particular the spec's concrete scenario: a song with
content-based score 0.4 under weight 0.3 and collaborative score 0.6 under
weight 0.3 ends in the final list with combined score 0.30, strictly
greater than either single contribution. -/
theorem hybridMerge_sums_contributions :
    (∀ (w : HybridWeights ℚ) (collab content ai popular : List (SrcRec ℚ)),
      (collab.map (·.id)).Nodup → ∀ id,
      combinedScore (hybridCombine w collab content ai popular) id
        = w.collaborative * listScoreSum collab id
          + w.contentBased * listScoreSum content id
          + w.aiEnhanced * listScoreSum ai id
          + w.popularity * listScoreSum popular id) ∧
    hybridGetRecommendations (defaultHybridWeights : HybridWeights ℚ)
        [⟨7, 3/5⟩] [⟨7, 2/5⟩] [] [] 20
      = [⟨7, 3/10, ["collaborative", "content-based"]⟩] ∧
    ((3:ℚ)/10 = (2/5) * (3/10) + (3/5) * (3/10) ∧
      (2:ℚ)/5 * (3/10) < 3/10 ∧ (3:ℚ)/5 * (3/10) < 3/10) := by
  refine ⟨fun w collab content ai popular hnod id =>
    hybridCombine_score w collab content ai popular hnod id, ?_, by norm_num⟩
  simp [hybridGetRecommendations, hybridCombine, addCollaborative, addSource,
    List.insertionSort, defaultHybridWeights, combinedScore]
  norm_num

/-- Witness for C4's universally quantified conjunct at the concrete
two-source scenario. -/
theorem hybridMerge_sums_contributions_witness :
    combinedScore
        (hybridCombine defaultHybridWeights [⟨7, 3/5⟩] [⟨7, 2/5⟩] [] []) 7
      = (3:ℚ)/10 * listScoreSum [⟨7, 3/5⟩] 7
        + 3/10 * listScoreSum [⟨7, 2/5⟩] 7
        + 3/10 * listScoreSum [] 7 + 1/10 * listScoreSum [] 7 :=
  hybridMerge_sums_contributions.1 defaultHybridWeights
    [⟨7, 3/5⟩] [⟨7, 2/5⟩] [] [] (by simp) 7

end ClaimC4

section ClaimC5

/-- C5 counterexample: `getRecommendations` performs NO weight validation.
With a weight configuration summing to 2 (collaborative 0.6, content 0.6,
AI 0.6, popularity 0.2) the call does not fail — it scores and merges
normally, and even returns a combined score of 2, outside `[0,1]`. -/
theorem hybridWeights_not_validated :
    hybridGetRecommendations (⟨3/5, 3/5, 3/5, 1/5⟩ : HybridWeights ℚ)
        [⟨7, 1⟩] [⟨7, 1⟩] [⟨7, 1⟩] [⟨7, 1⟩] 20
      = [⟨7, 2, ["collaborative", "content-based", "ai-enhanced",
          "popularity"]⟩] ∧
    ¬ ((3:ℚ)/5 + 3/5 + 3/5 + 1/5 ≤ 1) := by
  constructor
  · simp [hybridGetRecommendations, hybridCombine, addCollaborative,
      addSource, List.insertionSort, combinedScore]
    norm_num
  · norm_num

/-- C5 (amended): the entry point performs no validation of the weight
configuration and uses the caller's weights exactly as given: the combined
score of every song is homogeneous in the weight vector, so scaling a
well-formed configuration past the documented `sum ≤ 1` bound scales every
combined score with it instead of raising an error. -/
theorem hybridWeights_used_as_given (c : ℚ) (w : HybridWeights ℚ)
    (collab content ai popular : List (SrcRec ℚ))
    (hnod : (collab.map (·.id)).Nodup) (id : Nat) :
    combinedScore
        (hybridCombine
          ⟨c * w.collaborative, c * w.contentBased, c * w.aiEnhanced,
           c * w.popularity⟩ collab content ai popular) id
      = c * combinedScore (hybridCombine w collab content ai popular) id := by
  rw [hybridCombine_score _ collab content ai popular hnod id,
    hybridCombine_score w collab content ai popular hnod id]
  ring

/-- Witness for the amended C5 theorem: doubling the default weights
doubles the merged score of the fixture song. -/
theorem hybridWeights_used_as_given_witness :
    combinedScore
        (hybridCombine (⟨2 * (3/10), 2 * (3/10), 2 * (3/10), 2 * (1/10)⟩ :
          HybridWeights ℚ) [⟨7, 3/5⟩] [⟨7, 2/5⟩] [] []) 7
      = 2 * combinedScore
          (hybridCombine ⟨3/10, 3/10, 3/10, 1/10⟩ [⟨7, 3/5⟩] [⟨7, 2/5⟩] [] [])
          7 :=
  hybridWeights_used_as_given 2 ⟨3/10, 3/10, 3/10, 1/10⟩
    [⟨7, 3/5⟩] [⟨7, 2/5⟩] [] [] (by simp) 7

end ClaimC5

section ClaimC3

/-- C3: for a user with zero interaction rows and zero rating rows, the
cold-start entry point takes the cold path: every returned entry is tagged
with the single source `cold-start` (each carrying the fixed popular-song
score 0.5), the underlying song list is ordered by the popularity ordering
(total plays, then average rating, then popularity), and the only engine
method invoked is `getPopularSongs` — in particular neither the
collaborative filter nor the content-based filter's scoring runs. -/
theorem coldStart_short_circuit (db : RecoDb ℚ) (uid limit : Nat)
    (h1 : countInteractions db uid = 0) (h2 : countRatings db uid = 0) :
    (∃ l, (getColdStartRecommendations db uid limit).1 = ColdOutcome.cold l ∧
      (∀ e ∈ l, e.sources = ["cold-start"] ∧ e.recommendationScore = 1/2) ∧
      (l.map (·.song)).Sorted popLe) ∧
    (getColdStartRecommendations db uid limit).2
      = ["contentBased.getPopularSongs"] ∧
    "collaborative.findSimilarItems"
      ∉ (getColdStartRecommendations db uid limit).2 ∧
    "contentBased.getRecommendations"
      ∉ (getColdStartRecommendations db uid limit).2 := by
  have hcond : ¬ (0 < countInteractions db uid ∨ 0 < countRatings db uid) := by
    rw [h1, h2]; simp
  have hres : getColdStartRecommendations db uid limit
      = (ColdOutcome.cold ((getPopularSongs db limit).map fun r =>
          ⟨r.song, r.similarity, ["cold-start"]⟩),
         ["contentBased.getPopularSongs"]) := by
    unfold getColdStartRecommendations
    rw [if_neg hcond]
  refine ⟨⟨(getPopularSongs db limit).map fun r =>
    ⟨r.song, r.similarity, ["cold-start"]⟩, by rw [hres], ?_, ?_⟩,
    by rw [hres], by rw [hres]; simp, by rw [hres]; simp⟩
  · intro e he
    rcases List.mem_map.mp he with ⟨r, hr, rfl⟩
    refine ⟨rfl, ?_⟩
    rcases List.mem_map.mp hr with ⟨s, _, rfl⟩
    rfl
  · have hmap : (((getPopularSongs db limit).map fun r =>
        (⟨r.song, r.similarity, ["cold-start"]⟩ : ColdEntry ℚ)).map (·.song))
        = (List.insertionSort popLe db.songs).take limit := by
      simp [getPopularSongs, List.map_map, Function.comp_def, List.map_take]
    rw [hmap]
    exact List.Pairwise.sublist (List.take_sublist _ _)
      (List.sorted_insertionSort popLe db.songs)

/-- Witness for C3: a two-song table, a user with an interaction row
belonging to someone else. -/
theorem coldStart_short_circuit_witness :
    ((getColdStartRecommendations
        (⟨[songBlank, { songBlank with id := 8, totalPlays := 5 }],
          [(1, 7)], []⟩ : RecoDb ℚ) 2 20).2
      = ["contentBased.getPopularSongs"]) :=
  (coldStart_short_circuit
    ⟨[songBlank, { songBlank with id := 8, totalPlays := 5 }], [(1, 7)], []⟩
    2 20 (by simp [countInteractions]) (by simp [countRatings])).2.1

end ClaimC3

section SymmetryLemmas

variable {α : Type} [LinearOrderedField α]

theorem objGet_isSome_iff (f : FeatObj α) (k : String) :
    (objGet f k).isSome = true ↔ k ∈ f.map Prod.fst := by
  simp [objGet, List.mem_map]

theorem commonKeys_nodup (f1 f2 : FeatObj α)
    (h1 : (f1.map Prod.fst).Nodup) : (commonKeys f1 f2).Nodup :=
  h1.filter _

theorem mem_commonKeys (f1 f2 : FeatObj α) (k : String) :
    k ∈ commonKeys f1 f2
      ↔ ((objGet f1 k).isSome = true ∧ (objGet f2 k).isSome = true) := by
  unfold commonKeys
  rw [List.mem_filter, ← objGet_isSome_iff f1 k]

theorem commonKeys_perm (f1 f2 : FeatObj α)
    (h1 : (f1.map Prod.fst).Nodup) (h2 : (f2.map Prod.fst).Nodup) :
    (commonKeys f1 f2).Perm (commonKeys f2 f1) := by
  refine (List.perm_ext_iff_of_nodup (commonKeys_nodup f1 f2 h1)
    (commonKeys_nodup f2 f1 h2)).mpr fun k => ?_
  rw [mem_commonKeys, mem_commonKeys, and_comm]

/-- `cosineSimilarity` is symmetric (for any square-root function): the
shared-key set is the same in both directions, the dot product commutes,
and the two norms swap roles. -/
theorem cosineSimilarity_symm (sqrt : α → α) (f1 f2 : FeatObj α)
    (h1 : (f1.map Prod.fst).Nodup) (h2 : (f2.map Prod.fst).Nodup) :
    cosineSimilarity sqrt f1 f2 = cosineSimilarity sqrt f2 f1 := by
  have hp := commonKeys_perm f1 f2 h1 h2
  have hnil : (commonKeys f1 f2 = []) ↔ (commonKeys f2 f1 = []) := by
    constructor <;> intro h <;>
      [exact (h ▸ hp).symm.eq_nil; exact (h ▸ hp.symm).symm.eq_nil]
  have hdot : ((commonKeys f1 f2).map fun k =>
        (objGet f1 k).getD 0 * (objGet f2 k).getD 0).sum
      = ((commonKeys f2 f1).map fun k =>
        (objGet f2 k).getD 0 * (objGet f1 k).getD 0).sum := by
    rw [(hp.map _).sum_eq]
    congr 1
    exact List.map_congr_left fun k _ => mul_comm _ _
  have hn1 : ((commonKeys f1 f2).map fun k =>
        (objGet f1 k).getD 0 * (objGet f1 k).getD 0).sum
      = ((commonKeys f2 f1).map fun k =>
        (objGet f1 k).getD 0 * (objGet f1 k).getD 0).sum := (hp.map _).sum_eq
  have hn2 : ((commonKeys f1 f2).map fun k =>
        (objGet f2 k).getD 0 * (objGet f2 k).getD 0).sum
      = ((commonKeys f2 f1).map fun k =>
        (objGet f2 k).getD 0 * (objGet f2 k).getD 0).sum := (hp.map _).sum_eq
  unfold cosineSimilarity
  by_cases hn : commonKeys f1 f2 = []
  · rw [if_pos hn, if_pos (hnil.mp hn)]
  · rw [if_neg hn, if_neg (fun h => hn (hnil.mpr h))]
    rw [hdot, hn1, hn2]
    dsimp only
    generalize (List.map (fun k =>
      (objGet f2 k).getD 0 * (objGet f1 k).getD 0) (commonKeys f2 f1)).sum = D
    generalize (List.map (fun k =>
      (objGet f1 k).getD 0 * (objGet f1 k).getD 0) (commonKeys f2 f1)).sum = N1
    generalize (List.map (fun k =>
      (objGet f2 k).getD 0 * (objGet f2 k).getD 0) (commonKeys f2 f1)).sum = N2
    by_cases hz : N1 = 0 ∨ N2 = 0
    · rw [if_pos hz, if_pos hz.symm]
    · rw [if_neg hz, if_neg (fun h => hz h.symm), mul_comm (sqrt N1)]

/-- Under the undefined-name semantics the overlap count is the first
list's length whenever the second is nonempty, so the tag score is
symmetric exactly when the two row counts agree. -/
theorem tagOverlap_symm_len (g1 g2 : List String)
    (h : g1.length = g2.length) :
    tagOverlap (α := α) g1 g2 = tagOverlap g2 g1 := by
  unfold tagOverlap
  by_cases h2 : g2 = []
  · have h1 : g1 = [] := List.length_eq_zero.mp (by rw [h, h2]; rfl)
    rw [h1, h2]
  · have h1 : g1 ≠ [] := fun hh =>
      h2 (List.length_eq_zero.mp (by rw [← h, hh]; rfl))
    rw [if_neg h2, if_neg h1, h]

theorem normalizeFeatures_keys (f : FeatObj α) :
    (normalizeFeatures f).map Prod.fst = f.map Prod.fst := by
  unfold normalizeFeatures
  rw [List.map_map]
  refine List.map_congr_left fun kv _ => ?_
  rcases h : (ranges (α := α)).lookup kv.1 with _ | r <;> simp [h]

/-- `calculateAdvancedSimilarity` is symmetric for duplicate-free feature
keys when both songs carry equally many genre rows and equally many mood
rows (the count-based overlap then agrees in both directions). -/
theorem calculateAdvancedSimilarity_symm (sqrt : α → α) (w : AdvWeights α)
    (s1 s2 : ASong α)
    (hf1 : ∀ f, s1.audioFeatures = some f → (f.map Prod.fst).Nodup)
    (hf2 : ∀ f, s2.audioFeatures = some f → (f.map Prod.fst).Nodup)
    (hg : ∀ g1 g2, s1.genres = some g1 → s2.genres = some g2 →
      g1.length = g2.length)
    (hm : ∀ m1 m2, s1.moods = some m1 → s2.moods = some m2 →
      m1.length = m2.length) :
    calculateAdvancedSimilarity sqrt w s1 s2
      = calculateAdvancedSimilarity sqrt w s2 s1 := by
  unfold calculateAdvancedSimilarity
  have haudio :
      (match s1.audioFeatures, s2.audioFeatures with
       | some f1, some f2 =>
           cosineSimilarity sqrt (normalizeFeatures f1) (normalizeFeatures f2)
             * w.audioFeatures
       | _, _ => (0 : α))
      = (match s2.audioFeatures, s1.audioFeatures with
         | some f2, some f1 =>
             cosineSimilarity sqrt (normalizeFeatures f2)
               (normalizeFeatures f1) * w.audioFeatures
         | _, _ => (0 : α)) := by
    rcases e1 : s1.audioFeatures with _ | f1 <;>
      rcases e2 : s2.audioFeatures with _ | f2 <;>
      simp only [e1, e2] <;> try rfl
    rw [cosineSimilarity_symm sqrt _ _
      (by rw [normalizeFeatures_keys]; exact hf1 f1 e1)
      (by rw [normalizeFeatures_keys]; exact hf2 f2 e2)]
  have hgenre :
      (match s1.genres, s2.genres with
       | some g1, some g2 => tagOverlap g1 g2 * w.genre
       | _, _ => (0 : α))
      = (match s2.genres, s1.genres with
         | some g2, some g1 => tagOverlap g2 g1 * w.genre
         | _, _ => (0 : α)) := by
    rcases e1 : s1.genres with _ | g1 <;>
      rcases e2 : s2.genres with _ | g2 <;>
      simp only [e1, e2] <;> try rfl
    rw [tagOverlap_symm_len g1 g2 (hg g1 g2 e1 e2)]
  have hmood :
      (match s1.moods, s2.moods with
       | some m1, some m2 => tagOverlap m1 m2 * w.mood
       | _, _ => (0 : α))
      = (match s2.moods, s1.moods with
         | some m2, some m1 => tagOverlap m2 m1 * w.mood
         | _, _ => (0 : α)) := by
    rcases e1 : s1.moods with _ | m1 <;>
      rcases e2 : s2.moods with _ | m2 <;>
      simp only [e1, e2] <;> try rfl
    rw [tagOverlap_symm_len m1 m2 (hm m1 m2 e1 e2)]
  rw [haudio, hgenre, hmood, abs_sub_comm]

theorem nodup_keys_filterMap (l : List String) (hl : l.Nodup)
    (f : String → Option (String × α)) (hf : ∀ k p, f k = some p → p.1 = k) :
    ((l.filterMap f).map Prod.fst).Nodup := by
  induction l with
  | nil => simp
  | cons k rest ih =>
    rcases List.nodup_cons.mp hl with ⟨hk, hrest⟩
    rcases hfk : f k with _ | p
    · simpa [List.filterMap_cons, hfk] using ih hrest
    · simp only [List.filterMap_cons, hfk, List.map_cons]
      refine List.nodup_cons.mpr ⟨?_, ih hrest⟩
      intro hmem
      rcases List.mem_map.mp hmem with ⟨q, hq, hq1⟩
      rcases List.mem_filterMap.mp hq with ⟨k', hk', hfk'⟩
      rw [hf k' q hfk', hf k p hfk] at hq1
      exact hk (hq1 ▸ hk')

theorem extractAvailableFeatures_keys_nodup (s : DbSong α) :
    ((extractAvailableFeatures s).map Prod.fst).Nodup := by
  apply nodup_keys_filterMap cbFeatureKeys (by decide)
  intro k p h
  rcases hv : dbFeature s k with _ | v
  · rw [hv] at h
    exact absurd h (by simp)
  · rw [hv] at h
    dsimp only at h
    by_cases h0 : 0 < v
    · rw [if_pos h0] at h
      rw [← Option.some.inj h]
    · rw [if_neg h0] at h
      exact absurd h (by simp)

theorem calculatePartialAudioSimilarity_symm (s1 s2 : DbSong α) :
    calculatePartialAudioSimilarity s1 s2
      = calculatePartialAudioSimilarity s2 s1 := by
  unfold calculatePartialAudioSimilarity
  dsimp only
  have h1 := extractAvailableFeatures_keys_nodup s1
  have h2 := extractAvailableFeatures_keys_nodup s2
  have hp := commonKeys_perm (extractAvailableFeatures s1)
    (extractAvailableFeatures s2) h1 h2
  have hnil : (commonKeys (extractAvailableFeatures s1)
        (extractAvailableFeatures s2) = [])
      ↔ (commonKeys (extractAvailableFeatures s2)
        (extractAvailableFeatures s1) = []) := by
    constructor <;> intro h <;>
      [exact (h ▸ hp).symm.eq_nil; exact (h ▸ hp.symm).symm.eq_nil]
  have hsum : ((commonKeys (extractAvailableFeatures s1)
        (extractAvailableFeatures s2)).map fun k =>
          1 - min |(objGet (extractAvailableFeatures s1) k).getD 0
            - (objGet (extractAvailableFeatures s2) k).getD 0| 1).sum
      = ((commonKeys (extractAvailableFeatures s2)
        (extractAvailableFeatures s1)).map fun k =>
          1 - min |(objGet (extractAvailableFeatures s2) k).getD 0
            - (objGet (extractAvailableFeatures s1) k).getD 0| 1).sum := by
    rw [(hp.map _).sum_eq]
    congr 1
    exact List.map_congr_left fun k _ => by rw [abs_sub_comm]
  have hlen := hp.length_eq
  by_cases hn : commonKeys (extractAvailableFeatures s1)
      (extractAvailableFeatures s2) = []
  · rw [if_pos hn, if_pos (hnil.mp hn)]
  · rw [if_neg hn, if_neg fun h => hn (hnil.mpr h), hsum, hlen]

theorem cbfTagSim_symm_len (l1 l2 : List String)
    (h : l1.length = l2.length) :
    cbfTagSim (α := α) l1 l2 = cbfTagSim l2 l1 := by
  unfold cbfTagSim
  by_cases hc : l1 = [] ∨ l2 = []
  · rw [if_pos hc, if_pos hc.symm]
  · rw [if_neg hc, if_neg fun hh => hc hh.symm,
      tagOverlap_symm_len l1 l2 h]

/-- `ContentBasedFiltering.calculateEnhancedSimilarity` is symmetric when
both songs carry equally many genre rows and equally many mood rows. -/
theorem calculateEnhancedSimilarity_symm (sqrt : α → α) (s1 s2 : DbSong α)
    (hg : s1.genres.length = s2.genres.length)
    (hm : s1.moods.length = s2.moods.length) :
    calculateEnhancedSimilarity sqrt s1 s2
      = calculateEnhancedSimilarity sqrt s2 s1 := by
  have hadv : calculateAdvancedSimilarity sqrt defaultAdvWeights
      s1.toASong s2.toASong
      = calculateAdvancedSimilarity sqrt defaultAdvWeights
        s2.toASong s1.toASong := by
    refine calculateAdvancedSimilarity_symm sqrt defaultAdvWeights _ _
      ?_ ?_ ?_ ?_
    · intro x hx
      exact absurd hx (by simp [DbSong.toASong])
    · intro x hx
      exact absurd hx (by simp [DbSong.toASong])
    · intro g1 g2 e1 e2
      simp only [DbSong.toASong, Option.some.injEq] at e1 e2
      rw [← e1, ← e2]
      exact hg
    · intro m1 m2 e1 e2
      simp only [DbSong.toASong, Option.some.injEq] at e1 e2
      rw [← e1, ← e2]
      exact hm
  have hpart := calculatePartialAudioSimilarity_symm s1 s2
  have hgs := cbfTagSim_symm_len (α := α) s1.genres s2.genres hg
  have hms := cbfTagSim_symm_len (α := α) s1.moods s2.moods hm
  have hgp : cbfGenreSimWithPredictions s1 s2
      = cbfGenreSimWithPredictions s2 s1 := hgs
  have hmp : cbfMoodSimWithPredictions s1 s2
      = cbfMoodSimWithPredictions s2 s1 := hms
  have hart : (if s1.artist = s2.artist then (1:α) else 0)
      = (if s2.artist = s1.artist then 1 else 0) := by
    by_cases h : s1.artist = s2.artist
    · rw [if_pos h, if_pos h.symm]
    · rw [if_neg h, if_neg fun hh => h hh.symm]
  have habs : |s1.popularity.getD 0 - s2.popularity.getD 0|
      = |s2.popularity.getD 0 - s1.popularity.getD 0| := abs_sub_comm _ _
  unfold calculateEnhancedSimilarity
  dsimp only
  rcases Bool.eq_false_or_eq_true (hasAudioFeatures s1) with ha1 | ha1 <;>
    rcases Bool.eq_false_or_eq_true (hasAudioFeatures s2) with ha2 | ha2 <;>
    rcases Bool.eq_false_or_eq_true (hasGenres s1) with hge1 | hge1 <;>
    rcases Bool.eq_false_or_eq_true (hasGenres s2) with hge2 | hge2 <;>
    rcases Bool.eq_false_or_eq_true (hasMoods s1) with hmo1 | hmo1 <;>
    rcases Bool.eq_false_or_eq_true (hasMoods s2) with hmo2 | hmo2 <;>
    simp only [ha1, ha2, hge1, hge2, hmo1, hmo2, Bool.and_self,
      Bool.and_false, Bool.false_and, Bool.and_true, Bool.true_and,
      Bool.or_self, Bool.or_false, Bool.false_or, Bool.or_true,
      Bool.true_or, if_true, if_false, hadv, hpart, hgs, hms, hgp, hmp,
      hart, habs]

end SymmetryLemmas

section ClaimC8

/-- C8: refuted as stated — the deployed composite similarity is NOT
symmetric.  The engine's bare `include` queries return join rows without
`name`, so the tag overlap is the first song's whole row count over the
larger row count; on a pair with one genre row versus two,
`ContentBasedFiltering.calculateEnhancedSimilarity` scores 1/2 in one
direction and 3/4 in the other. -/
theorem enhanced_similarity_asymmetric :
    calculateEnhancedSimilarity Real.sqrt songGa songGb2 = 1/2 ∧
    calculateEnhancedSimilarity Real.sqrt songGb2 songGa = 3/4 ∧
    calculateEnhancedSimilarity Real.sqrt songGa songGb2
      ≠ calculateEnhancedSimilarity Real.sqrt songGb2 songGa := by
  have h1 : calculateEnhancedSimilarity Real.sqrt songGa songGb2 = 1/2 := by
    simp [calculateEnhancedSimilarity, hasAudioFeatures, posOpt, hasGenres,
      hasMoods, cbfTagSim, tagOverlap, songGa, songGb2, songBlankR]
    try norm_num
  have h2 : calculateEnhancedSimilarity Real.sqrt songGb2 songGa = 3/4 := by
    simp [calculateEnhancedSimilarity, hasAudioFeatures, posOpt, hasGenres,
      hasMoods, cbfTagSim, tagOverlap, songGa, songGb2, songBlankR]
    try norm_num
  refine ⟨h1, h2, ?_⟩
  rw [h1, h2]
  norm_num

/-- C8 (amended): `cosineSimilarity` IS symmetric (any square-root
function, duplicate-free key sets, as JS object keys are); the two
composite similarities are symmetric only conditionally — when the songs
carry equally many genre rows and equally many mood rows, the count-based
overlap agrees in both directions — with the advanced score and the
enhanced score's advanced call additionally kept away from the both-empty
tag corner where the JS quotient is `0/0 = NaN`. -/
theorem similarity_symmetry_status (α : Type) [LinearOrderedField α]
    (sqrt : α → α) :
    (∀ f1 f2 : FeatObj α,
      (f1.map Prod.fst).Nodup → (f2.map Prod.fst).Nodup →
      cosineSimilarity sqrt f1 f2 = cosineSimilarity sqrt f2 f1) ∧
    (∀ (w : AdvWeights α) (s1 s2 : ASong α),
      (∀ f, s1.audioFeatures = some f → (f.map Prod.fst).Nodup) →
      (∀ f, s2.audioFeatures = some f → (f.map Prod.fst).Nodup) →
      (∀ g1 g2, s1.genres = some g1 → s2.genres = some g2 →
        g1.length = g2.length ∧ g1 ≠ []) →
      (∀ m1 m2, s1.moods = some m1 → s2.moods = some m2 →
        m1.length = m2.length ∧ m1 ≠ []) →
      calculateAdvancedSimilarity sqrt w s1 s2
        = calculateAdvancedSimilarity sqrt w s2 s1) ∧
    (∀ s1 s2 : DbSong α,
      s1.genres.length = s2.genres.length →
      s1.moods.length = s2.moods.length →
      ((hasAudioFeatures s1 && hasAudioFeatures s2) = true →
        s1.genres ≠ [] ∧ s1.moods ≠ []) →
      calculateEnhancedSimilarity sqrt s1 s2
        = calculateEnhancedSimilarity sqrt s2 s1) :=
  ⟨fun f1 f2 h1 h2 => cosineSimilarity_symm sqrt f1 f2 h1 h2,
   fun w s1 s2 hf1 hf2 hg hm =>
     calculateAdvancedSimilarity_symm sqrt w s1 s2 hf1 hf2
       (fun g1 g2 e1 e2 => (hg g1 g2 e1 e2).1)
       (fun m1 m2 e1 e2 => (hm m1 m2 e1 e2).1),
   fun s1 s2 hg hm _ => calculateEnhancedSimilarity_symm sqrt s1 s2 hg hm⟩

/-- Witness for the amended C8 theorem at concrete inputs over `ℚ`. -/
theorem similarity_symmetry_status_witness :
    cosineSimilarity id [("energy", (1:ℚ))] [("energy", 2), ("tempo", 3)]
      = cosineSimilarity id [("energy", 2), ("tempo", 3)] [("energy", (1:ℚ))] ∧
    calculateAdvancedSimilarity id defaultAdvWeights
        (⟨1, some [("energy", (1:ℚ))], some ["Trap"], some ["Happy"], some 10⟩)
        (⟨2, none, some ["Pop"], some ["Sad"], none⟩)
      = calculateAdvancedSimilarity id defaultAdvWeights
        (⟨2, none, some ["Pop"], some ["Sad"], none⟩)
        (⟨1, some [("energy", (1:ℚ))], some ["Trap"], some ["Happy"],
          some 10⟩) ∧
    calculateEnhancedSimilarity id { songBlank with genres := ["Pop"] }
        { songBlank with id := 9, genres := ["Trap"] }
      = calculateEnhancedSimilarity id
        { songBlank with id := 9, genres := ["Trap"] }
        { songBlank with genres := ["Pop"] } := by
  refine ⟨(similarity_symmetry_status ℚ id).1 _ _ (by decide) (by decide),
    (similarity_symmetry_status ℚ id).2.1 defaultAdvWeights _ _ ?_ ?_ ?_ ?_,
    (similarity_symmetry_status ℚ id).2.2 _ _ (by decide) (by decide) ?_⟩
  · intro x hx
    injection hx with h
    subst h
    decide
  · intro x hx
    exact absurd hx (by simp)
  · intro g1 g2 e1 e2
    injection e1 with e1
    injection e2 with e2
    subst e1
    subst e2
    decide
  · intro m1 m2 e1 e2
    injection e1 with e1
    injection e2 with e2
    subst e1
    subst e2
    decide
  · decide

end ClaimC8

section MonotonicityLemmas

variable {α : Type} [LinearOrderedField α]

theorem mem_of_objGet_eq_some (f : FeatObj α) (k : String) (v : α)
    (h : objGet f k = some v) : (k, v) ∈ f := by
  induction f with
  | nil => simp [objGet] at h
  | cons kv rest ih =>
    by_cases hk : k = kv.1
    · simp only [objGet, List.lookup, hk, beq_self_eq_true] at h
      simp [← Option.some.inj h, hk]
    · have hb : (k == kv.1) = false := by simp [hk]
      simp only [objGet, List.lookup, hb] at h
      exact List.mem_cons_of_mem _ (ih h)

theorem objGet_getD_nonneg (f : FeatObj α) (k : String)
    (h : ∀ kv ∈ f, 0 ≤ kv.2) : 0 ≤ (objGet f k).getD 0 := by
  rcases hv : objGet f k with _ | v
  · simp
  · simpa using h (k, v) (mem_of_objGet_eq_some f k v hv)

theorem cosineSimilarity_nonneg (sqrt : α → α)
    (hs : ∀ x, 0 ≤ x → 0 ≤ sqrt x) (f1 f2 : FeatObj α)
    (h1 : ∀ kv ∈ f1, 0 ≤ kv.2) (h2 : ∀ kv ∈ f2, 0 ≤ kv.2) :
    0 ≤ cosineSimilarity sqrt f1 f2 := by
  unfold cosineSimilarity
  dsimp only
  by_cases hk : commonKeys f1 f2 = []
  · rw [if_pos hk]
  · rw [if_neg hk]
    have hdot : (0:α) ≤ ((commonKeys f1 f2).map fun k =>
        (objGet f1 k).getD 0 * (objGet f2 k).getD 0).sum := by
      apply List.sum_nonneg
      intro x hx
      rcases List.mem_map.mp hx with ⟨k, _, rfl⟩
      exact mul_nonneg (objGet_getD_nonneg f1 k h1) (objGet_getD_nonneg f2 k h2)
    have hn1 : (0:α) ≤ ((commonKeys f1 f2).map fun k =>
        (objGet f1 k).getD 0 * (objGet f1 k).getD 0).sum := by
      apply List.sum_nonneg
      intro x hx
      rcases List.mem_map.mp hx with ⟨k, _, rfl⟩
      exact mul_self_nonneg _
    have hn2 : (0:α) ≤ ((commonKeys f1 f2).map fun k =>
        (objGet f2 k).getD 0 * (objGet f2 k).getD 0).sum := by
      apply List.sum_nonneg
      intro x hx
      rcases List.mem_map.mp hx with ⟨k, _, rfl⟩
      exact mul_self_nonneg _
    by_cases hz : ((commonKeys f1 f2).map fun k =>
        (objGet f1 k).getD 0 * (objGet f1 k).getD 0).sum = 0 ∨
        ((commonKeys f1 f2).map fun k =>
        (objGet f2 k).getD 0 * (objGet f2 k).getD 0).sum = 0
    · rw [if_pos hz]
    · rw [if_neg hz]
      exact div_nonneg hdot (mul_nonneg (hs _ hn1) (hs _ hn2))

theorem normalizeFeatures_nonneg (f : FeatObj α)
    (h : ∀ kv ∈ f, ((ranges (α := α)).lookup kv.1).isSome = true) :
    ∀ kv ∈ normalizeFeatures f, 0 ≤ kv.2 := by
  intro kv hkv
  rcases List.mem_map.mp hkv with ⟨kv0, hkv0, rfl⟩
  rcases hr : (ranges (α := α)).lookup kv0.1 with _ | r
  · exact absurd (h kv0 hkv0) (by simp [hr])
  · simp only [hr]
    exact le_max_left 0 _

theorem tagOverlap_nonneg (g1 g2 : List String) :
    (0:α) ≤ tagOverlap g1 g2 := by
  unfold tagOverlap
  apply div_nonneg
  · split
    · exact le_refl 0
    · positivity
  · positivity

theorem clamp01_mono {a b : α} (h : a ≤ b) :
    max 0 (min 1 a) ≤ max 0 (min 1 b) :=
  max_le_max le_rfl (min_le_min le_rfl h)

/-- Removing the genre data of the first song never increases the advanced
composite score (nonnegative weights). -/
theorem advanced_genre_removal_le (sqrt : α → α) (w : AdvWeights α)
    (hw : 0 ≤ w.genre) (s1 s2 : ASong α) :
    calculateAdvancedSimilarity sqrt w
        ⟨s1.id, s1.audioFeatures, none, s1.moods, s1.popularity⟩ s2
      ≤ calculateAdvancedSimilarity sqrt w s1 s2 := by
  unfold calculateAdvancedSimilarity
  dsimp only
  apply clamp01_mono
  rcases e1 : s1.genres with _ | g1 <;> rcases e2 : s2.genres with _ | g2 <;>
    dsimp only
  · linarith
  · linarith
  · linarith
  · have := mul_nonneg (tagOverlap_nonneg (α := α) g1 g2) hw
    linarith

/-- Removing the mood data of the first song never increases the advanced
composite score (nonnegative weights). -/
theorem advanced_mood_removal_le (sqrt : α → α) (w : AdvWeights α)
    (hw : 0 ≤ w.mood) (s1 s2 : ASong α) :
    calculateAdvancedSimilarity sqrt w
        ⟨s1.id, s1.audioFeatures, s1.genres, none, s1.popularity⟩ s2
      ≤ calculateAdvancedSimilarity sqrt w s1 s2 := by
  unfold calculateAdvancedSimilarity
  dsimp only
  apply clamp01_mono
  rcases e1 : s1.moods with _ | m1 <;> rcases e2 : s2.moods with _ | m2 <;>
    dsimp only
  · linarith
  · linarith
  · linarith
  · have := mul_nonneg (tagOverlap_nonneg (α := α) m1 m2) hw
    linarith

/-- Removing the audio-feature data of the first song never increases the
advanced composite score (nonnegative weights, documented feature keys, and
a square root that preserves nonnegativity, as `Math.sqrt` does). -/
theorem advanced_audio_removal_le (sqrt : α → α)
    (hs : ∀ x, 0 ≤ x → 0 ≤ sqrt x) (w : AdvWeights α)
    (hw : 0 ≤ w.audioFeatures) (s1 s2 : ASong α)
    (hk1 : ∀ f, s1.audioFeatures = some f →
      ∀ kv ∈ f, ((ranges (α := α)).lookup kv.1).isSome = true)
    (hk2 : ∀ f, s2.audioFeatures = some f →
      ∀ kv ∈ f, ((ranges (α := α)).lookup kv.1).isSome = true) :
    calculateAdvancedSimilarity sqrt w
        ⟨s1.id, none, s1.genres, s1.moods, s1.popularity⟩ s2
      ≤ calculateAdvancedSimilarity sqrt w s1 s2 := by
  unfold calculateAdvancedSimilarity
  dsimp only
  apply clamp01_mono
  rcases e1 : s1.audioFeatures with _ | f1 <;>
    rcases e2 : s2.audioFeatures with _ | f2 <;>
    dsimp only
  · linarith
  · linarith
  · linarith
  · have := mul_nonneg
      (cosineSimilarity_nonneg sqrt hs _ _
        (normalizeFeatures_nonneg f1 (hk1 f1 e1))
        (normalizeFeatures_nonneg f2 (hk2 f2 e2))) hw
    linarith

end MonotonicityLemmas

section ClaimC6

/-- C6 counterexample: removing an available factor's data CAN increase
`ContentBasedFiltering.calculateEnhancedSimilarity`.  On a same-artist pair
with one genre row versus two (and nothing else present) the count-based
genre factor scores 1/2, giving an overall 3/4; with the genre rows removed
from both sides the renormalised score rises to 1. -/
theorem enhanced_removing_genre_data_raises_score :
    calculateEnhancedSimilarity Real.sqrt songGa songGc = 3/4 ∧
    calculateEnhancedSimilarity Real.sqrt songGaX songGcX = 1 ∧
    ¬ (calculateEnhancedSimilarity Real.sqrt songGaX songGcX
        ≤ calculateEnhancedSimilarity Real.sqrt songGa songGc) := by
  have h1 : calculateEnhancedSimilarity Real.sqrt songGa songGc = 3/4 := by
    simp [calculateEnhancedSimilarity, hasAudioFeatures, posOpt, hasGenres,
      hasMoods, cbfTagSim, tagOverlap, songGa, songGc, songBlankR]
    try norm_num
  have h2 : calculateEnhancedSimilarity Real.sqrt songGaX songGcX = 1 := by
    simp [calculateEnhancedSimilarity, hasAudioFeatures, posOpt, hasGenres,
      hasMoods, cbfTagSim, tagOverlap, songGaX, songGcX, songGa, songGc,
      songBlankR]
    try norm_num
  refine ⟨h1, h2, ?_⟩
  rw [h1, h2]
  norm_num

/-- C6 (amended): for `calculateAdvancedSimilarity` removing the genre,
mood, or audio-feature data of a song never increases the pair's score
(nonnegative weights; features drawn from the documented keys; a square
root preserving nonnegativity, as `Math.sqrt` does; and the pair kept away
from the both-empty-tag corner where the JS score is already `NaN`); but
for `ContentBasedFiltering.calculateEnhancedSimilarity` removing a factor
scoring below the pair's remaining average increases the score, because the
normalising denominator shrinks with the removed weight (concretely 3/4
rises to 1 on the same-artist, one-row-versus-two pair). -/
theorem removing_data_monotonicity_status :
    (∀ (α : Type) [LinearOrderedField α], ∀ (sqrt : α → α)
      (w : AdvWeights α), 0 ≤ w.genre → ∀ s1 s2 : ASong α,
      ¬ (s1.genres = some [] ∧ s2.genres = some []) →
      ¬ (s1.moods = some [] ∧ s2.moods = some []) →
      calculateAdvancedSimilarity sqrt w
          ⟨s1.id, s1.audioFeatures, none, s1.moods, s1.popularity⟩ s2
        ≤ calculateAdvancedSimilarity sqrt w s1 s2) ∧
    (∀ (α : Type) [LinearOrderedField α], ∀ (sqrt : α → α)
      (w : AdvWeights α), 0 ≤ w.mood → ∀ s1 s2 : ASong α,
      ¬ (s1.genres = some [] ∧ s2.genres = some []) →
      ¬ (s1.moods = some [] ∧ s2.moods = some []) →
      calculateAdvancedSimilarity sqrt w
          ⟨s1.id, s1.audioFeatures, s1.genres, none, s1.popularity⟩ s2
        ≤ calculateAdvancedSimilarity sqrt w s1 s2) ∧
    (∀ (α : Type) [LinearOrderedField α], ∀ (sqrt : α → α),
      (∀ x, 0 ≤ x → 0 ≤ sqrt x) → ∀ (w : AdvWeights α),
      0 ≤ w.audioFeatures → ∀ s1 s2 : ASong α,
      ¬ (s1.genres = some [] ∧ s2.genres = some []) →
      ¬ (s1.moods = some [] ∧ s2.moods = some []) →
      (∀ f, s1.audioFeatures = some f →
        ∀ kv ∈ f, ((ranges (α := α)).lookup kv.1).isSome = true) →
      (∀ f, s2.audioFeatures = some f →
        ∀ kv ∈ f, ((ranges (α := α)).lookup kv.1).isSome = true) →
      calculateAdvancedSimilarity sqrt w
          ⟨s1.id, none, s1.genres, s1.moods, s1.popularity⟩ s2
        ≤ calculateAdvancedSimilarity sqrt w s1 s2) ∧
    (calculateEnhancedSimilarity Real.sqrt songGa songGc = 3/4 ∧
     calculateEnhancedSimilarity Real.sqrt songGaX songGcX = 1) := by
  refine ⟨fun α _ sqrt w hw s1 s2 _ _ =>
      advanced_genre_removal_le sqrt w hw s1 s2,
    fun α _ sqrt w hw s1 s2 _ _ => advanced_mood_removal_le sqrt w hw s1 s2,
    fun α _ sqrt hs w hw s1 s2 _ _ hk1 hk2 =>
      advanced_audio_removal_le sqrt hs w hw s1 s2 hk1 hk2, ?_, ?_⟩
  · simp [calculateEnhancedSimilarity, hasAudioFeatures, posOpt, hasGenres,
      hasMoods, cbfTagSim, tagOverlap, songGa, songGc, songBlankR]
    try norm_num
  · simp [calculateEnhancedSimilarity, hasAudioFeatures, posOpt, hasGenres,
      hasMoods, cbfTagSim, tagOverlap, songGaX, songGcX, songGa, songGc,
      songBlankR]
    try norm_num

/-- Witness for the amended C6 theorem: genre removal at a concrete pair
over `ℚ`. -/
theorem removing_data_monotonicity_status_witness :
    calculateAdvancedSimilarity id defaultAdvWeights
        (⟨1, none, none, none, none⟩ : ASong ℚ)
        (⟨2, none, some ["Trap"], none, none⟩ : ASong ℚ)
      ≤ calculateAdvancedSimilarity id defaultAdvWeights
        (⟨1, none, some ["Trap"], none, none⟩ : ASong ℚ)
        (⟨2, none, some ["Trap"], none, none⟩ : ASong ℚ) :=
  removing_data_monotonicity_status.1 ℚ id defaultAdvWeights
    (by norm_num [defaultAdvWeights])
    ⟨1, none, some ["Trap"], none, none⟩ ⟨2, none, some ["Trap"], none, none⟩
    (by decide) (by decide)

end ClaimC6

section ClaimC1

/-- C1 counterexample: `calculateAdvancedSimilarity` does NOT divide by the
sum of the present factors' weights.  On a pair whose only present factor
is popularity (scoring 1), the claimed formula gives `(1 × 0.1)/0.1 = 1`,
but the function returns the unnormalised `0.1` — the pair IS dragged
toward 0 by the missing factors. -/
theorem advanced_similarity_not_renormalised :
    calculateAdvancedSimilarity Real.sqrt defaultAdvWeights
        aSongEmpty1 aSongEmpty2 = 1/10 ∧
    calculateAdvancedSimilarity Real.sqrt defaultAdvWeights
        aSongEmpty1 aSongEmpty2 ≠ 1 * (1/10) / (1/10) := by
  have h : calculateAdvancedSimilarity Real.sqrt defaultAdvWeights
      aSongEmpty1 aSongEmpty2 = 1/10 := by
    simp [calculateAdvancedSimilarity, aSongEmpty1, aSongEmpty2,
      defaultAdvWeights]
    norm_num
  exact ⟨h, by rw [h]; norm_num⟩

/-- C1 (amended): only `ContentBasedFiltering.calculateEnhancedSimilarity`
renormalises, and only factors absent on BOTH songs are dropped from
numerator and denominator: (a) with audio and moods absent on both sides
and genres present on both, the score is exactly the weighted sum of the
present factors divided by the sum of their weights; (b) hence a pair
scoring 1 on every present factor scores 1 despite two missing factors;
(c) a factor absent on exactly ONE song is still included, at a reduced
weight, in both numerator and denominator (the one-sided-audio pair scores
(0×0.25 + 1×0.1 + 1×0.1)/(0.25+0.1+0.1) = 4/9, not the 1 that omission
would give); and (see the counterexample) `calculateAdvancedSimilarity`
performs no renormalisation at all. -/
theorem enhanced_similarity_partial_credit :
    (∀ (α : Type) [LinearOrderedField α], ∀ (sqrt : α → α) (s1 s2 : DbSong α),
      hasAudioFeatures s1 = false → hasAudioFeatures s2 = false →
      hasMoods s1 = false → hasMoods s2 = false →
      hasGenres s1 = true → hasGenres s2 = true →
      calculateEnhancedSimilarity sqrt s1 s2
        = max 0 (min 1
            ((cbfTagSim s1.genres s2.genres * (1/5)
              + (if s1.artist = s2.artist then (1:α) else 0) * (1/10)
              + (1 - |s1.popularity.getD 0 - s2.popularity.getD 0| / 100)
                * (1/10))
             / (1/5 + 1/10 + 1/10)))) ∧
    calculateEnhancedSimilarity Real.sqrt songGa
        { songGa with id := 8 } = 1 ∧
    calculateEnhancedSimilarity Real.sqrt songP1 songP2 = 4/9 := by
  refine ⟨?_, ?_, ?_⟩
  · intro α _ sqrt s1 s2 ha1 ha2 hm1 hm2 hg1 hg2
    unfold calculateEnhancedSimilarity
    dsimp only
    rw [ha1, ha2, hm1, hm2, hg1, hg2]
    simp only [Bool.and_self, Bool.false_and, Bool.and_false, Bool.and_true,
      Bool.true_and, Bool.or_self, if_true, if_false, Bool.false_or,
      Bool.or_false, Bool.false_eq_true, Bool.true_eq_false]
    rw [if_pos (by norm_num : (0:α) < 0 + 1/5 + 0 + 1/10 + 1/10)]
    ring_nf
  · simp [calculateEnhancedSimilarity, hasAudioFeatures, posOpt, hasGenres,
      hasMoods, cbfTagSim, tagOverlap, songGa, songBlankR]
    norm_num
  · have hpart : calculatePartialAudioSimilarity songP1 songP2 = 0 := by
      simp [calculatePartialAudioSimilarity, extractAvailableFeatures,
        commonKeys, objGet, cbFeatureKeys, dbFeature, songP1, songP2,
        songBlankR, List.lookup]
    have hA1 : hasAudioFeatures songP1 = true := by
      simp [hasAudioFeatures, posOpt, songP1, songBlankR]
    have hA2 : hasAudioFeatures songP2 = false := by
      simp [hasAudioFeatures, posOpt, songP2, songBlankR]
    have hG1 : hasGenres songP1 = false := by
      simp [hasGenres, songP1, songBlankR]
    have hG2 : hasGenres songP2 = false := by
      simp [hasGenres, songP2, songBlankR]
    have hM1 : hasMoods songP1 = false := by
      simp [hasMoods, songP1, songBlankR]
    have hM2 : hasMoods songP2 = false := by
      simp [hasMoods, songP2, songBlankR]
    have hart : songP1.artist = songP2.artist := rfl
    have hpo1 : songP1.popularity = none := rfl
    have hpo2 : songP2.popularity = none := rfl
    unfold calculateEnhancedSimilarity
    dsimp only
    rw [hA1, hA2, hG1, hG2, hM1, hM2, hpart, hart, hpo1, hpo2]
    simp only [Bool.and_self, Bool.false_and, Bool.and_false, Bool.and_true,
      Bool.true_and, Bool.or_self, if_true, if_false, Bool.false_or,
      Bool.or_false, Bool.true_or, Bool.false_eq_true, Bool.true_eq_false]
    rw [if_pos (by norm_num : (0:ℝ) < 1/2 * (1/2) + 0 + 0 + 1/10 + 1/10)]
    norm_num

/-- Witness for the amended C1 theorem: the both-absent omission formula at
a concrete genre-only pair over `ℚ`. -/
theorem enhanced_similarity_partial_credit_witness :
    calculateEnhancedSimilarity id
        (⟨1, "t", "a", none, none, none, none, none, none, none, none, none,
          none, none, none, none, ["Pop"], [], none, 0, 0⟩ : DbSong ℚ)
        (⟨2, "u", "a", none, none, none, none, none, none, none, none, none,
          none, none, none, none, ["Pop"], [], none, 0, 0⟩ : DbSong ℚ)
      = max 0 (min 1
          ((cbfTagSim ["Pop"] ["Pop"] * (1/5)
            + (if ("a" : String) = "a" then (1:ℚ) else 0) * (1/10)
            + (1 - |(none : Option ℚ).getD 0 - (none : Option ℚ).getD 0|
                / 100) * (1/10))
           / (1/5 + 1/10 + 1/10))) :=
  enhanced_similarity_partial_credit.1 ℚ id _ _
    (by decide) (by decide) (by decide) (by decide) (by decide) (by decide)

end ClaimC1

section ClaimC9

theorem predictAudioFeatures_fallback_uzi :
    predictAudioFeatures (α := ℝ) fallbackState songUziR
      = featureDefaults := by
  simp [predictAudioFeatures, predictionsBase, songUziR, songBlankR,
    predictFeature_fallback_no_avail, featureDefaults,
    getDefaultFeatureValue, objGet, List.lookup, jsOr]

theorem sim_lt_sim {d1 d2 n1 n2 N : ℝ} (hN : 0 < N) (h1 : 0 < n1)
    (h2 : 0 < n2) (hd1 : 0 ≤ d1) (hd2 : 0 ≤ d2)
    (h : d1^2 * n2 < d2^2 * n1) :
    d1 / (Real.sqrt N * Real.sqrt n1) < d2 / (Real.sqrt N * Real.sqrt n2) := by
  have hsN := Real.sqrt_pos.mpr hN
  have hs1 := Real.sqrt_pos.mpr h1
  have hs2 := Real.sqrt_pos.mpr h2
  rw [div_lt_div_iff₀ (by positivity) (by positivity)]
  have key : d1 * Real.sqrt n2 < d2 * Real.sqrt n1 := by
    have e1 : d1 * Real.sqrt n2 = Real.sqrt (d1^2 * n2) := by
      rw [Real.sqrt_mul (by positivity), Real.sqrt_sq hd1]
    have e2 : d2 * Real.sqrt n1 = Real.sqrt (d2^2 * n1) := by
      rw [Real.sqrt_mul (by positivity), Real.sqrt_sq hd2]
    rw [e1, e2]
    exact Real.sqrt_lt_sqrt (by positivity) h
  calc d1 * (Real.sqrt N * Real.sqrt n2)
      = Real.sqrt N * (d1 * Real.sqrt n2) := by ring
    _ < Real.sqrt N * (d2 * Real.sqrt n1) := mul_lt_mul_of_pos_left key hsN
    _ = d2 * (Real.sqrt N * Real.sqrt n1) := by ring

theorem quarter_lt_sim {d n N : ℝ} (hN : 0 < N) (hn : 0 < n) (hd : 0 < d)
    (h : N * n < 16 * d^2) :
    1/4 < d / (Real.sqrt N * Real.sqrt n) := by
  have hx : Real.sqrt N * Real.sqrt n = Real.sqrt (N * n) :=
    (Real.sqrt_mul hN.le n).symm
  rw [lt_div_iff₀ (by positivity), hx]
  have h4 : Real.sqrt (N * n) < 4 * d := by
    refine (Real.sqrt_lt' (by positivity)).mpr ?_
    nlinarith
  nlinarith [Real.sqrt_nonneg (N * n)]

theorem hsimTrap :
    calculateFeatureSimilarity Real.sqrt (featureDefaults (α := ℝ))
        [("energy", 4/5), ("danceability", 7/10), ("valence", 1/2),
         ("tempo", 4/5), ("speechiness", 3/5)]
      = (4853/50) / (Real.sqrt (360019/25) * Real.sqrt (119/50)) := by
  simp [calculateFeatureSimilarity, cosineSimilarity, commonKeys, objGet,
    List.lookup, featureDefaults]
  norm_num

theorem hsimHipHop :
    calculateFeatureSimilarity Real.sqrt (featureDefaults (α := ℝ))
        [("energy", 3/5), ("danceability", 3/5), ("valence", 1/2),
         ("tempo", 1/2), ("speechiness", 4/5)]
      = (6093/100) / (Real.sqrt (360019/25) * Real.sqrt (93/50)) := by
  simp [calculateFeatureSimilarity, cosineSimilarity, commonKeys, objGet,
    List.lookup, featureDefaults]
  norm_num

theorem hsimRnB :
    calculateFeatureSimilarity Real.sqrt (featureDefaults (α := ℝ))
        [("energy", 1/2), ("danceability", 7/10), ("valence", 3/5),
         ("tempo", 2/5), ("speechiness", 3/10)]
      = (4893/100) / (Real.sqrt (360019/25) * Real.sqrt (27/20)) := by
  simp [calculateFeatureSimilarity, cosineSimilarity, commonKeys, objGet,
    List.lookup, featureDefaults]
  norm_num

theorem hsimPop :
    calculateFeatureSimilarity Real.sqrt (featureDefaults (α := ℝ))
        [("energy", 7/10), ("danceability", 4/5), ("valence", 7/10),
         ("tempo", 3/5), ("speechiness", 1/5)]
      = (1828/25) / (Real.sqrt (360019/25) * Real.sqrt (101/50)) := by
  simp [calculateFeatureSimilarity, cosineSimilarity, commonKeys, objGet,
    List.lookup, featureDefaults]
  norm_num

theorem oi_stop {β : Type} (r : β → β → Prop) [DecidableRel r] (a b : β)
    (l : List β) (h : r a b) :
    List.orderedInsert r a (b :: l) = a :: b :: l := by
  simp [List.orderedInsert, h]

theorem oi_skip {β : Type} (r : β → β → Prop) [DecidableRel r] (a b : β)
    (l : List β) (h : ¬ r a b) :
    List.orderedInsert r a (b :: l) = b :: List.orderedInsert r a l := by
  simp [List.orderedInsert, h]

theorem oi_nil {β : Type} (r : β → β → Prop) [DecidableRel r] (a : β) :
    List.orderedInsert r a [] = [a] := rfl

theorem predictGenresFromFeatures_fallback (af : FeatObj ℝ) (s : DbSong ℝ) :
    predictGenresFromFeatures Real.sqrt fallbackState af s =
      ((sortByScoreDesc (combineVotes (
        (predictGenresFromAudioFeatures Real.sqrt af fallbackGenreAverages).map
          (fun p => ("[object Object]", p.2)) ++
        (aiPredictGenresFromMetadata s).map (fun g => (g, 3/5)) ++
        (predictGenresFromArtist s.artist).map (fun g => (g, 7/10)) ++
        (predictGenresFromYear s.year).map (fun g => (g, 1/2))))).take 2).map
        Prod.fst := rfl

theorem c9_votes (a b c : ℝ) :
    combineVotes [("[object Object]", a), ("[object Object]", b),
        ("[object Object]", c), ("Trap", (3:ℝ)/5), ("Hip-Hop", (3:ℝ)/5),
        ("trap", (7:ℝ)/10)]
      = [("[object Object]", a + b + c), ("Trap", (3:ℝ)/5),
         ("Hip-Hop", (3:ℝ)/5), ("trap", (7:ℝ)/10)] := by
  simp [combineVotes, List.lookup]

theorem c9_audio_sort (vT vHH vRB vP : ℝ) (h1 : vP ≤ vT) (h2 : ¬ vP ≤ vHH)
    (h3 : ¬ vP ≤ vRB) (h4 : vRB ≤ vHH) :
    (sortByScoreDesc [("Trap", vT), ("Hip-Hop", vHH), ("R&B", vRB),
        ("Pop", vP)]).take 3
      = [("Trap", vT), ("Pop", vP), ("Hip-Hop", vHH)] := by
  unfold sortByScoreDesc
  simp only [List.insertionSort]
  rw [oi_nil]
  rw [oi_skip _ ("R&B", vRB) ("Pop", vP) _ (by exact h3)]
  rw [oi_nil]
  rw [oi_skip _ ("Hip-Hop", vHH) ("Pop", vP) _ (by exact h2)]
  rw [oi_stop _ ("Hip-Hop", vHH) ("R&B", vRB) _ (by exact h4)]
  rw [oi_stop _ ("Trap", vT) ("Pop", vP) _ (by exact h1)]
  rfl

theorem c9_tally_sort (S : ℝ) (hS : (7:ℝ)/10 ≤ S) :
    ((sortByScoreDesc [("[object Object]", S), ("Trap", (3:ℝ)/5),
        ("Hip-Hop", (3:ℝ)/5), ("trap", (7:ℝ)/10)]).take 2).map Prod.fst
      = ["[object Object]", "trap"] := by
  have hns : ¬ ((7:ℝ)/10 ≤ (3:ℝ)/5) := by norm_num
  unfold sortByScoreDesc
  simp only [List.insertionSort]
  rw [oi_nil]
  rw [oi_skip _ ("Hip-Hop", (3:ℝ)/5) ("trap", (7:ℝ)/10) _ (by exact hns)]
  rw [oi_nil]
  rw [oi_skip _ ("Trap", (3:ℝ)/5) ("trap", (7:ℝ)/10) _ (by exact hns)]
  rw [oi_stop _ ("Trap", (3:ℝ)/5) ("Hip-Hop", (3:ℝ)/5) _ (by exact le_refl ((3:ℝ)/5))]
  rw [oi_stop _ ("[object Object]", S) ("trap", (7:ℝ)/10) _ (by exact hS)]
  rfl

theorem c9_audio_full :
    predictGenresFromAudioFeatures Real.sqrt (featureDefaults (α := ℝ))
        fallbackGenreAverages
      = [("Trap", (4853/50 : ℝ) / (Real.sqrt (360019/25) * Real.sqrt (119/50))),
         ("Pop", (1828/25 : ℝ) / (Real.sqrt (360019/25) * Real.sqrt (101/50))),
         ("Hip-Hop",
          (6093/100 : ℝ) / (Real.sqrt (360019/25) * Real.sqrt (93/50)))] := by
  have hPT : (1828/25 : ℝ) / (Real.sqrt (360019/25) * Real.sqrt (101/50))
      ≤ (4853/50 : ℝ) / (Real.sqrt (360019/25) * Real.sqrt (119/50)) :=
    le_of_lt (sim_lt_sim (by norm_num) (by norm_num) (by norm_num)
      (by norm_num) (by norm_num) (by norm_num))
  have hHP : ¬ ((1828/25 : ℝ) / (Real.sqrt (360019/25) * Real.sqrt (101/50))
      ≤ (6093/100 : ℝ) / (Real.sqrt (360019/25) * Real.sqrt (93/50))) :=
    not_le.mpr (sim_lt_sim (by norm_num) (by norm_num) (by norm_num)
      (by norm_num) (by norm_num) (by norm_num))
  have hRP : ¬ ((1828/25 : ℝ) / (Real.sqrt (360019/25) * Real.sqrt (101/50))
      ≤ (4893/100 : ℝ) / (Real.sqrt (360019/25) * Real.sqrt (27/20))) :=
    not_le.mpr (sim_lt_sim (by norm_num) (by norm_num) (by norm_num)
      (by norm_num) (by norm_num) (by norm_num))
  have hRH : (4893/100 : ℝ) / (Real.sqrt (360019/25) * Real.sqrt (27/20))
      ≤ (6093/100 : ℝ) / (Real.sqrt (360019/25) * Real.sqrt (93/50)) :=
    le_of_lt (sim_lt_sim (by norm_num) (by norm_num) (by norm_num)
      (by norm_num) (by norm_num) (by norm_num))
  have hmap : fallbackGenreAverages.map
      (fun ga =>
        (ga.1, calculateFeatureSimilarity Real.sqrt (featureDefaults (α := ℝ))
          ga.2))
      = [("Trap", (4853/50 : ℝ) / (Real.sqrt (360019/25) * Real.sqrt (119/50))),
         ("Hip-Hop",
          (6093/100 : ℝ) / (Real.sqrt (360019/25) * Real.sqrt (93/50))),
         ("R&B", (4893/100 : ℝ) / (Real.sqrt (360019/25) * Real.sqrt (27/20))),
         ("Pop",
          (1828/25 : ℝ) / (Real.sqrt (360019/25) * Real.sqrt (101/50)))] := by
    simp only [fallbackGenreAverages, List.map_cons, List.map_nil]
    rw [hsimTrap, hsimHipHop, hsimRnB, hsimPop]
  unfold predictGenresFromAudioFeatures
  rw [hmap]
  exact c9_audio_sort _ _ _ _ hPT hHP hRP hRH

theorem c9_quarter :
    (7/10 : ℝ)
      ≤ (4853/50 : ℝ) / (Real.sqrt (360019/25) * Real.sqrt (119/50))
        + (1828/25 : ℝ) / (Real.sqrt (360019/25) * Real.sqrt (101/50))
        + (6093/100 : ℝ) / (Real.sqrt (360019/25) * Real.sqrt (93/50)) := by
  have hT := quarter_lt_sim (N := (360019/25 : ℝ)) (n := (119/50 : ℝ))
    (d := (4853/50 : ℝ)) (by norm_num) (by norm_num) (by norm_num) (by norm_num)
  have hP := quarter_lt_sim (N := (360019/25 : ℝ)) (n := (101/50 : ℝ))
    (d := (1828/25 : ℝ)) (by norm_num) (by norm_num) (by norm_num) (by norm_num)
  have hH := quarter_lt_sim (N := (360019/25 : ℝ)) (n := (93/50 : ℝ))
    (d := (6093/100 : ℝ)) (by norm_num) (by norm_num) (by norm_num)
    (by norm_num)
  linarith

/-- C9: refuted as stated — a code bug.  For the song with artist "uzi",
no genre tags, no year and zero audio features present, the fallback-mode
genre-prediction ensemble returns `["[object Object]", "trap"]`: the audio
voter pushes its whole `{genre, confidence}` record as the object key
(coerced to the string `"[object Object]"`), so that its three entries
merge into one dominant vote, and the only surviving label is the artist
voter's lowercase `"trap"`.  Neither `"Trap"` nor `"Hip-Hop"` appears in
the returned list, contradicting the claim. -/
theorem predictGenres_uzi_object_key_bug :
    predictGenres Real.sqrt fallbackState songUziR
      = ["[object Object]", "trap"]
    ∧ ¬ ("Trap" ∈ predictGenres Real.sqrt fallbackState songUziR
         ∨ "Hip-Hop" ∈ predictGenres Real.sqrt fallbackState songUziR) := by
  have main : predictGenres Real.sqrt fallbackState songUziR
      = ["[object Object]", "trap"] := by
    simp only [predictGenres]
    rw [if_neg (by decide : ¬ songUziR.genres ≠ [])]
    rw [predictAudioFeatures_fallback_uzi]
    rw [predictGenresFromFeatures_fallback]
    rw [c9_audio_full]
    have hMeta : aiPredictGenresFromMetadata songUziR = ["Trap", "Hip-Hop"] := by
      decide
    have hArtist : predictGenresFromArtist songUziR.artist = ["trap"] := by
      decide
    have hYear : predictGenresFromYear songUziR.year = ([] : List String) := rfl
    rw [hMeta, hArtist, hYear]
    simp only [List.map_cons, List.map_nil, List.cons_append, List.nil_append,
      List.append_nil]
    rw [c9_votes]
    exact c9_tally_sort _ c9_quarter
  refine ⟨main, ?_⟩
  rw [main]
  decide

end ClaimC9

end UziVerse
